import Mathlib

/-!
Shallow embedding of the router reconciliation engine in
`neutron/plugins/cisco/cfg_agent/service_helpers/phy_routing_svc_helper.py`
and of the resource-deletion retry logic in
`neutron/plugins/cisco/device_manager/plugging_drivers/hw_vlan_trunking_driver.py`,
together with theorems settling the specification claims about them.

Python dictionaries that the code reads are embedded as structures holding
exactly the fields the analyzed code inspects.  Driver and control-plane
calls that live outside these two files are modelled as oracle functions
(an `Env` / `ServiceEnv`) returning either success (`none`) or an exception
constructor; the calls themselves are recorded in an event trace so that
"a driver call was issued" is a statement about the trace.
-/

namespace PhyRSH

/-- A neutron port as far as the analyzed code inspects it: its `id` and
its `admin_state_up` flag. -/
structure Port where
  id : Nat
  admin_state_up : Bool
  deriving DecidableEq, Repr

/-- A neutron router dictionary as far as the analyzed code inspects it:
`interfaces` is the value stored under `l3_constants.INTERFACE_KEY`,
`ha_gw_ports` the value under `l3_constants.HA_GW_KEY`, `gw_port` the value
under `"gw_port"` (absence = `none`), and `enable_snat` the optional
`"enable_snat"` entry read by the `RouterInfo.router` setter. -/
structure Router where
  id : String
  admin_state_up : Bool
  gw_port : Option Port
  interfaces : List Port
  ha_gw_ports : List Port
  enable_snat : Option Bool
  deriving DecidableEq, Repr

/-- `RouterInfo` (phy_routing_svc_helper.py lines 27-74).  The fields
`floating_ips`, `routes`, `ha_info` and `_snat_action` are carried by the
Python object but never read by any code under analysis, so they are
omitted from the embedding. -/
structure RouterInfo where
  router_id : String
  ex_gw_port : Option Port
  internal_ports : List Port
  ha_gw_ports : List Port
  router : Router
  snat_enabled : Option Bool
  deriving DecidableEq, Repr

/-- The `RouterInfo.router` property setter (lines 65-71): store the new
router dict and derive `_snat_enabled` from `enable_snat`, defaulting to
`true` when the plugin did not specify it. -/
def routerSetter (ri : RouterInfo) (r : Router) : RouterInfo :=
  { ri with router := r, snat_enabled := some (r.enable_snat.getD true) }

/-- `RouterInfo.__init__` (lines 40-51): fresh record with empty applied
port lists; the assignment `self.router = router` runs the setter. -/
def RouterInfo.init (router_id : String) (r : Router) : RouterInfo :=
  routerSetter
    { router_id := router_id, ex_gw_port := none, internal_ports := [],
      ha_gw_ports := [], router := r, snat_enabled := none } r

/-- `PhyRouterContext._get_port_set_diffs` (lines 313-323), returning
`(old_ports, new_ports)`.  `current_port_ids` is the id set of the
*admin-up* members of `current_list`, exactly as in the Python. -/
def get_port_set_diffs (existing_list current_list : List Port) :
    List Port × List Port :=
  let existing_port_ids : List Nat := existing_list.map (fun p => p.id)
  let current_port_ids : List Nat :=
    (current_list.filter (fun p => p.admin_state_up)).map (fun p => p.id)
  let new_ports := current_list.filter
    (fun p => decide (p.id ∈ current_port_ids) &&
              !decide (p.id ∈ existing_port_ids))
  let old_ports := existing_list.filter
    (fun p => !decide (p.id ∈ current_port_ids))
  (old_ports, new_ports)

/-- Exceptions distinguished by the `try`/`except` clauses of the analyzed
code: `cfg_exceptions.DriverException`, `KeyError`,
`messaging.MessagingTimeout`, and any other (unexpected) exception. -/
inductive Exc where
  | driverException
  | keyError
  | messagingTimeout
  | other
  deriving DecidableEq, Repr

/-- Modelled from the spec: the per-device driver capability set (spec §6).
`_internal_network_added/removed`, `_external_gateway_added/removed`,
`_process_router_floating_ips` and `_routes_updated` are methods of the
parent class `routing_svc_helper.RoutingServiceHelper`, which is not part
of the analyzed sources; each is modelled as an oracle returning `none` on
success or the exception it raises.  `_router_removed` / `_router_added`
/ `_set_subnet_info` failures are folded into these oracles. -/
structure Env where
  internalAdded : String → Port → Option Exc
  internalRemoved : String → Port → Option Exc
  gatewayAdded : String → Port → Option Exc
  gatewayRemoved : String → Port → Option Exc
  floatingIps : String → Port → Option Exc
  routesUpd : String → Option Exc

/-- Trace events: one per external call issued by the reconciliation code.
An event is recorded when the call is issued, whether or not it fails. -/
inductive Event where
  | internalNetworkAdded (rid : String) (p : Port)
  | internalNetworkRemoved (rid : String) (p : Port)
  | externalGatewayAdded (rid : String) (p : Port)
  | externalGatewayRemoved (rid : String) (p : Port)
  | floatingIpsProcessed (rid : String) (gw : Port)
  | routesUpdated (rid : String)
  | routerRemoved (rid : String)
  deriving DecidableEq, Repr

/-- The router id an event belongs to. -/
def Event.rid : Event → String
  | .internalNetworkAdded rid _ => rid
  | .internalNetworkRemoved rid _ => rid
  | .externalGatewayAdded rid _ => rid
  | .externalGatewayRemoved rid _ => rid
  | .floatingIpsProcessed rid _ => rid
  | .routesUpdated rid => rid
  | .routerRemoved rid => rid

/-- The shape shared by the four port loops of `_process_router`
(lines 350-366): for each port `p`, issue a driver call `op p` (recorded
as event `evc p`), and — only when that call returned without exception —
apply the in-place record update `upd` (`list.append` after an add,
`list.remove` after a remove).  An exception stops the loop and
propagates; mutations made so far persist. -/
def portLoop (op : Port → Option Exc) (evc : Port → Event)
    (upd : RouterInfo → Port → RouterInfo) :
    List Port → RouterInfo → RouterInfo × List Event × Option Exc
  | [], ri => (ri, [], none)
  | p :: ps, ri =>
    match op p with
    | some e => (ri, [evc p], some e)
    | none =>
      let res := portLoop op evc upd ps (upd ri p)
      (res.1, evc p :: res.2.1, res.2.2)

/-- The first loop of `_process_router` (lines 350-353): new internal
ports; `_set_subnet_info(p)` is a pure annotation in this model, the
`_internal_network_added` driver call is `op`, and `ri.internal_ports.
append(p)` runs only after the call succeeded. -/
def addInternalPorts (env : Env) (rid : String) :
    List Port → RouterInfo → RouterInfo × List Event × Option Exc :=
  portLoop (env.internalAdded rid) (Event.internalNetworkAdded rid)
    (fun ri p => { ri with internal_ports := ri.internal_ports ++ [p] })

/-- The second loop of `_process_router` (lines 355-357): old internal
ports; `ri.internal_ports.remove(p)` (removal of the first equal element)
runs only after the `_internal_network_removed` call returned, so a
failing call leaves the entry in place. -/
def removeInternalPorts (env : Env) (rid : String) :
    List Port → RouterInfo → RouterInfo × List Event × Option Exc :=
  portLoop (env.internalRemoved rid) (Event.internalNetworkRemoved rid)
    (fun ri p => { ri with internal_ports := ri.internal_ports.erase p })

/-- The third loop of `_process_router` (lines 359-362): new HA gateway
ports, appended to `ri.ha_gw_ports` only after a successful
`_external_gateway_added` call. -/
def addGwPorts (env : Env) (rid : String) :
    List Port → RouterInfo → RouterInfo × List Event × Option Exc :=
  portLoop (env.gatewayAdded rid) (Event.externalGatewayAdded rid)
    (fun ri p => { ri with ha_gw_ports := ri.ha_gw_ports ++ [p] })

/-- The fourth loop of `_process_router` (lines 364-366): old HA gateway
ports, dropped from `ri.ha_gw_ports` only after the
`_external_gateway_removed` call returned. -/
def removeGwPorts (env : Env) (rid : String) :
    List Port → RouterInfo → RouterInfo × List Event × Option Exc :=
  portLoop (env.gatewayRemoved rid) (Event.externalGatewayRemoved rid)
    (fun ri p => { ri with ha_gw_ports := ri.ha_gw_ports.erase p })

/-- The tail of `_process_router` (lines 377-378): `ri.ex_gw_port =
ex_gw_port` followed by the unconditional `self._routes_updated(ri)`
call. -/
def finishRoutes (env : Env) (rid : String) (ri : RouterInfo)
    (gw : Option Port) : RouterInfo × List Event × Option Exc :=
  ({ ri with ex_gw_port := gw }, [Event.routesUpdated rid],
   env.routesUpd rid)

/-- `PhyRouterContext._process_router` (lines 325-382), without the
`except DriverException` clause: the exception is returned as the third
component and the caller (`processLoop`) performs the
`updated_routers.update([r['id']])` bookkeeping — the handler inside
`_process_router` adds the same id before re-raising, which is absorbed
by set idempotence.  Partial mutations of `ri` made before an exception
persist, exactly like the in-place mutations of the Python object. -/
def processRouter (env : Env) (ri : RouterInfo) :
    RouterInfo × List Event × Option Exc :=
  let rid := ri.router_id
  let ex_gw_port := ri.router.gw_port
  let internal_ports := ri.router.interfaces
  let gw_ports := ri.router.ha_gw_ports
  let diffs := get_port_set_diffs ri.internal_ports internal_ports
  let gwDiffs := get_port_set_diffs ri.ha_gw_ports gw_ports
  match addInternalPorts env rid diffs.2 ri with
  | (ri1, tr1, some e) => (ri1, tr1, some e)
  | (ri1, tr1, none) =>
    match removeInternalPorts env rid diffs.1 ri1 with
    | (ri2, tr2, some e) => (ri2, tr1 ++ tr2, some e)
    | (ri2, tr2, none) =>
      match addGwPorts env rid gwDiffs.2 ri2 with
      | (ri3, tr3, some e) => (ri3, tr1 ++ tr2 ++ tr3, some e)
      | (ri3, tr3, none) =>
        match removeGwPorts env rid gwDiffs.1 ri3 with
        | (ri4, tr4, some e) => (ri4, tr1 ++ tr2 ++ tr3 ++ tr4, some e)
        | (ri4, tr4, none) =>
          match ex_gw_port with
          | some gw =>
            match env.floatingIps rid gw with
            | some e =>
              (ri4, tr1 ++ tr2 ++ tr3 ++ tr4 ++
                [Event.floatingIpsProcessed rid gw], some e)
            | none =>
              let res := finishRoutes env rid ri4 ex_gw_port
              (res.1, tr1 ++ tr2 ++ tr3 ++ tr4 ++
                (Event.floatingIpsProcessed rid gw :: res.2.1), res.2.2)
          | none =>
            let res := finishRoutes env rid ri4 ex_gw_port
            (res.1, tr1 ++ tr2 ++ tr3 ++ tr4 ++ res.2.1, res.2.2)

/-- The mutable state of one `PhyRouterContext` (one per managed device):
the `router_info` map (embedded as an association list preserving insertion
order), the pending `updated_routers` / `removed_routers` id sets, the set
`sync_devices` of backlogged device ids, and the `fullsync` flag
(lines 132-144). -/
structure CtxState where
  router_info : List (String × RouterInfo)
  updated_routers : List String
  removed_routers : List String
  sync_devices : List Nat
  fullsync : Bool
  deriving DecidableEq, Repr

/-- Dictionary lookup on the `router_info` association list. -/
def riLookup : List (String × RouterInfo) → String → Option RouterInfo
  | [], _ => none
  | kv :: rest, k => if kv.1 = k then some kv.2 else riLookup rest k

/-- Dictionary store `router_info[k] = v`: replace the existing binding or
append a new one, preserving insertion order like a Python dict. -/
def riInsert : List (String × RouterInfo) → String → RouterInfo →
    List (String × RouterInfo)
  | [], k, v => [(k, v)]
  | kv :: rest, k, v =>
    if kv.1 = k then (k, v) :: rest else kv :: riInsert rest k v

/-- Dictionary deletion `del router_info[k]` (total: no-op if absent). -/
def riErase (m : List (String × RouterInfo)) (k : String) :
    List (String × RouterInfo) :=
  m.filter (fun kv => !decide (kv.1 = k))

/-- `set.add` / `set.update` on an id set embedded as a duplicate-free
list preserving insertion order. -/
def insertId (l : List String) (i : String) : List String :=
  if i ∈ l then l else l ++ [i]

/-- `set.add` on the `sync_devices` set of device ids. -/
def insertNat (l : List Nat) (i : Nat) : List Nat :=
  if i ∈ l then l else l ++ [i]

/-- The value of the sentinel `PHYSICAL_GLOBAL_ROUTER_ID` id (line 219). -/
def PHYSICAL_GLOBAL_ROUTER_ID : String := "PHYSICAL_GLOBAL_ROUTER_ID"

/-- `PhyRouterContext._adjust_router_list` (lines 217-222): move the first
router carrying the global sentinel id to the end of the list. -/
def adjust_router_list (routers : List Router) : List Router :=
  match routers.find? (fun r => r.id == PHYSICAL_GLOBAL_ROUTER_ID) with
  | none => routers
  | some r => routers.erase r ++ [r]

/-- Modelled from the spec: `_router_removed` is defined in the parent
class `routing_svc_helper.RoutingServiceHelper`, which is not among the
analyzed sources.  Spec §4.1 step 6: "invoke router-removal teardown and
discard its RouterRecord"; the teardown driver activity is recorded as a
single `routerRemoved` trace event and the record is dropped from
`router_info`. -/
def routerRemovedStep (st : CtxState) (rid : String) : CtxState × Event :=
  ({ st with router_info := riErase st.router_info rid },
   Event.routerRemoved rid)

/-- The two removal loops of `_process_routers` (lines 265-272): call
`_router_removed` for every id and collect the ids into
`deleted_id_list`. -/
def removePhase : List String → CtxState → CtxState × List Event
  | [], st => (st, [])
  | i :: is, st =>
    let step := routerRemovedStep st i
    let res := removePhase is step.1
    (res.1, step.2 :: res.2)

/-- The record used for router `r` in the main loop of `_process_routers`
(lines 284-286): the existing `router_info` entry, or — via
`_router_added`, modelled from spec §4.1 step 8 ("create a RouterRecord")
with the in-source `RouterInfo.__init__` — a fresh record stored under
`r['id']`. -/
def currentRecord (st : CtxState) (r : Router) : RouterInfo :=
  match riLookup st.router_info r.id with
  | some ri => ri
  | none => RouterInfo.init r.id r

/-- The main loop of `_process_routers` (lines 275-299).  Routers whose id
is in `deleted_id_list` or whose admin-state is down are skipped (the
dead re-insertion into `cur_router_ids` at line 282 is dropped — the set
is never read afterwards).  Otherwise the record is fetched or created,
`ri.router = r` runs the setter, and `_process_router` is invoked; since
`ri` is the object stored in `router_info`, its partial mutations persist
there even when `_process_router` raises.  A `KeyError` or
`DriverException` re-queues the id and sets `fullsync`; any other
exception aborts the loop (third component `true`), to be caught by the
surrounding `except Exception` boundary. -/
def processLoop (env : Env) (deleted : List String) :
    List Router → CtxState → CtxState × List Event × Bool
  | [], st => (st, [], false)
  | r :: rest, st =>
    if r.id ∈ deleted then processLoop env deleted rest st
    else if r.admin_state_up = false then processLoop env deleted rest st
    else
      let pr := processRouter env (routerSetter (currentRecord st r) r)
      let st1 : CtxState :=
        { st with router_info := riInsert st.router_info r.id pr.1 }
      match pr.2.2 with
      | none =>
        let res := processLoop env deleted rest st1
        (res.1, pr.2.1 ++ res.2.1, res.2.2)
      | some Exc.keyError =>
        let res := processLoop env deleted rest
          { st1 with updated_routers := insertId st1.updated_routers r.id,
                     fullsync := true }
        (res.1, pr.2.1 ++ res.2.1, res.2.2)
      | some Exc.driverException =>
        let res := processLoop env deleted rest
          { st1 with updated_routers := insertId st1.updated_routers r.id,
                     fullsync := true }
        (res.1, pr.2.1 ++ res.2.1, res.2.2)
      | some _ => (st1, pr.2.1, true)

/-- `PhyRouterContext._process_routers` (lines 224-311).  `prev_router_ids`
and `cur_router_ids` are computed as in the Python (set iteration order is
modelled as first-occurrence list order); routers known locally but absent
from the admin-up current set are removed, then the explicitly removed
routers, then the main loop runs over the adjusted list.  An unexpected
exception escaping the loop is caught by the outer `except Exception`,
which adds `device_id` to `sync_devices` (lines 308-311). -/
def processRouters (env : Env) (st : CtxState) (routers : List Router)
    (removed_routers : List Router) (device_id : Nat) (all_routers : Bool) :
    CtxState × List Event :=
  let routerIds : List String := routers.map (fun r => r.id)
  let prev_router_ids : List String :=
    if all_routers then st.router_info.map (fun kv => kv.1)
    else (st.router_info.map (fun kv => kv.1)).filter
      (fun i => decide (i ∈ routerIds))
  let cur_router_ids : List String :=
    (routers.filter (fun r => r.admin_state_up)).map (fun r => r.id)
  let toRemove : List String :=
    prev_router_ids.filter (fun i => !decide (i ∈ cur_router_ids))
  let ph1 := removePhase toRemove st
  let removedIds : List String := removed_routers.map (fun r => r.id)
  let ph2 := removePhase removedIds ph1.1
  let deleted_id_list : List String := toRemove ++ removedIds
  let adjusted := adjust_router_list routers
  let res := processLoop env deleted_id_list adjusted ph2.1
  if res.2.2 then
    ({ res.1 with sync_devices := insertNat res.1.sync_devices device_id },
     ph1.2 ++ ph2.2 ++ res.2.1)
  else (res.1, ph1.2 ++ ph2.2 ++ res.2.1)

/-- The control-plane / driver calls made by `PhyRouterContext.
process_service` around `_process_routers`.  `sendEmptyCfg` is the
device heartbeat `send_empty_cfg` (line 168); `fetchAll` / `fetchByIds`
are `_fetch_router_info` — modelled from the spec (§6
`fetchDesiredState`), since that method lives in the parent class;
`deleteInvalidCfg`, `prepareFullsyncCall` and `clearFullsyncCall` are the
driver calls wrapped by the in-source methods `delete_invalid_cfg`,
`prepare_fullsync` and `clear_fullsync` (lines 150-163). -/
structure ServiceEnv where
  toEnv : Env
  sendEmptyCfg : Option Exc
  fetchAll : Except Exc (List Router)
  fetchByIds : List String → Except Exc (List Router)
  deleteInvalidCfg : Option Exc
  prepareFullsyncCall : Option Exc
  clearFullsyncCall : Option Exc

/-- `PhyRouterContext.process_service` (lines 165-214).  Every failing
call inside the `try` block lands in the `except Exception` handler,
which logs and sets `self.fullsync = True`; mutations made before the
exception persist.  In the fullsync branch the flag is cleared and the
pending sets emptied *before* fetching (lines 177-181), and
`router_info` is reset only after the pre-pass cleanup steps (line 185).
In the incremental branch `updated_routers` is cleared before the fetch
(line 190; clearing an empty set is the identity) and `removed_routers`
is left in place.  The unused `resources` dict and the commented-out
green-pool dispatch are omitted. -/
def process_service (env : ServiceEnv) (st : CtxState) :
    CtxState × List Event :=
  match env.sendEmptyCfg with
  | some _ => ({ st with fullsync := true }, [])
  | none =>
    if st.fullsync then
      let st1 : CtxState :=
        { st with fullsync := false, updated_routers := [],
                  removed_routers := [], sync_devices := [] }
      match env.fetchAll with
      | .error _ => ({ st1 with fullsync := true }, [])
      | .ok routers =>
        match env.deleteInvalidCfg with
        | some _ => ({ st1 with fullsync := true }, [])
        | none =>
          match env.prepareFullsyncCall with
          | some _ => ({ st1 with fullsync := true }, [])
          | none =>
            let st2 : CtxState := { st1 with router_info := [] }
            let res := processRouters env.toEnv st2 routers [] 0 true
            match env.clearFullsyncCall with
            | some _ => ({ res.1 with fullsync := true }, res.2)
            | none => res
    else
      if st.updated_routers = [] then
        let removedList : List Router :=
          st.removed_routers.filterMap
            (fun i => (riLookup st.router_info i).map (fun ri => ri.router))
        let res := processRouters env.toEnv st [] removedList 0 false
        match env.clearFullsyncCall with
        | some _ => ({ res.1 with fullsync := true }, res.2)
        | none => res
      else
        match env.fetchByIds st.updated_routers with
        | .error _ => ({ st with updated_routers := [], fullsync := true }, [])
        | .ok routers =>
          let st1 : CtxState := { st with updated_routers := [] }
          let removedList : List Router :=
            st1.removed_routers.filterMap
              (fun i => (riLookup st1.router_info i).map (fun ri => ri.router))
          let res := processRouters env.toEnv st1 routers removedList 0 false
          match env.clearFullsyncCall with
          | some _ => ({ res.1 with fullsync := true }, res.2)
          | none => res

/-- `RoutingServiceHelperWithPhyContext.resync_asrs` (lines 434-436): set
the `fullsync` flag of every device context. -/
def resync_asrs (ctxs : List (String × CtxState)) : List (String × CtxState) :=
  ctxs.map (fun nc => (nc.1, { nc.2 with fullsync := true }))

/-- The per-device fan-out of the fleet-level `process_service`
(lines 448-451).  The green-pool concurrency is modelled as a sequential
fold: each device context runs its own `process_service` with its own
environment (the claims settled here concern only the timeout branch,
which never reaches this fold). -/
def fleetFanout (envs : String → ServiceEnv) :
    List (String × CtxState) → List (String × CtxState) × List Event
  | [] => ([], [])
  | nc :: rest =>
    let res := process_service (envs nc.1) nc.2
    let tail := fleetFanout envs rest
    ((nc.1, res.1) :: tail.1, res.2 ++ tail.2)

/-- `RoutingServiceHelperWithPhyContext.process_service` (lines 439-451):
the control-plane heartbeat `agent_heartbeat` runs first; a
`MessagingTimeout` triggers `resync_asrs` and an immediate return before
any device context is touched; any other exception propagates out
(`Except.error`); otherwise every device context's pass is dispatched. -/
def fleet_process_service (heartbeat : Option Exc)
    (envs : String → ServiceEnv) (ctxs : List (String × CtxState)) :
    Except Exc (List (String × CtxState) × List Event) :=
  match heartbeat with
  | some Exc.messagingTimeout => .ok (resync_asrs ctxs, [])
  | some e => .error e
  | none => .ok (fleetFanout envs ctxs)

/-- Proof infrastructure: the result of the first port loop of
`_process_router` on `ri` (new internal ports). -/
def prStage1 (env : Env) (ri : RouterInfo) :
    RouterInfo × List Event × Option Exc :=
  addInternalPorts env ri.router_id
    (get_port_set_diffs ri.internal_ports ri.router.interfaces).2 ri

/-- Proof infrastructure: the result of the second port loop (old internal
ports), starting from the record left by the first. -/
def prStage2 (env : Env) (ri : RouterInfo) :
    RouterInfo × List Event × Option Exc :=
  removeInternalPorts env ri.router_id
    (get_port_set_diffs ri.internal_ports ri.router.interfaces).1
    (prStage1 env ri).1

/-- Proof infrastructure: the result of the third port loop (new HA
gateway ports). -/
def prStage3 (env : Env) (ri : RouterInfo) :
    RouterInfo × List Event × Option Exc :=
  addGwPorts env ri.router_id
    (get_port_set_diffs ri.ha_gw_ports ri.router.ha_gw_ports).2
    (prStage2 env ri).1

/-- Proof infrastructure: the result of the fourth port loop (old HA
gateway ports). -/
def prStage4 (env : Env) (ri : RouterInfo) :
    RouterInfo × List Event × Option Exc :=
  removeGwPorts env ri.router_id
    (get_port_set_diffs ri.ha_gw_ports ri.router.ha_gw_ports).1
    (prStage3 env ri).1

/-- Proof infrastructure: `prev_router_ids` of `_process_routers`
(lines 250-254). -/
def prevRouterIds (st : CtxState) (routers : List Router)
    (all_routers : Bool) : List String :=
  if all_routers then st.router_info.map (fun kv => kv.1)
  else (st.router_info.map (fun kv => kv.1)).filter
    (fun i => decide (i ∈ routers.map (fun r => r.id)))

/-- Proof infrastructure: `cur_router_ids` after the first loop of
`_process_routers` (lines 259-262). -/
def curRouterIds (routers : List Router) : List String :=
  (routers.filter (fun r => r.admin_state_up)).map (fun r => r.id)

/-- Proof infrastructure: the ids removed by the `prev - cur` loop. -/
def toRemoveIds (st : CtxState) (routers : List Router)
    (all_routers : Bool) : List String :=
  (prevRouterIds st routers all_routers).filter
    (fun i => !decide (i ∈ curRouterIds routers))

/-- Proof infrastructure: `deleted_id_list` after both removal loops. -/
def deletedIds (st : CtxState) (routers removed_routers : List Router)
    (all_routers : Bool) : List String :=
  toRemoveIds st routers all_routers ++
    removed_routers.map (fun r => r.id)

/-- Proof infrastructure: the context state after both removal loops. -/
def afterRemovals (st : CtxState) (routers removed_routers : List Router)
    (all_routers : Bool) : CtxState :=
  (removePhase (removed_routers.map (fun r => r.id))
    (removePhase (toRemoveIds st routers all_routers) st).1).1

/-- The port diff exactly as claim C6 words it: `newPorts` are the items
of `new` whose id is not among `old`-side ids and whose own admin-state
is up, and `oldPorts` are the items of `old` whose id is not among the
ids of `new` (regardless of admin-state).  Used only to compare with
`get_port_set_diffs`. -/
def claimOldPorts (existing current : List Port) : List Port :=
  existing.filter (fun p => !decide (p.id ∈ current.map (fun q => q.id)))

/-- See `claimOldPorts`. -/
def claimNewPorts (existing current : List Port) : List Port :=
  current.filter (fun p =>
    p.admin_state_up && !decide (p.id ∈ existing.map (fun q => q.id)))

/-- The port diff as the amended claim words it: both filters compare
against the id set of the admin-up items of `new`. -/
def amendedOldPorts (existing current : List Port) : List Port :=
  existing.filter (fun p => !decide (p.id ∈
    (current.filter (fun q => q.admin_state_up)).map (fun q => q.id)))

/-- See `amendedOldPorts`. -/
def amendedNewPorts (existing current : List Port) : List Port :=
  current.filter (fun p =>
    decide (p.id ∈
      (current.filter (fun q => q.admin_state_up)).map (fun q => q.id)) &&
    !decide (p.id ∈ existing.map (fun q => q.id)))

/-- A driver environment in which every call succeeds. -/
def envAllOk : Env :=
  { internalAdded := fun _ _ => none, internalRemoved := fun _ _ => none,
    gatewayAdded := fun _ _ => none, gatewayRemoved := fun _ _ => none,
    floatingIps := fun _ _ => none, routesUpd := fun _ => none }

/-- A driver environment whose remove-internal-port call always raises a
`DriverException`. -/
def envRemoveFails : Env :=
  { envAllOk with internalRemoved := fun _ _ => some Exc.driverException }

/-- A driver environment whose route-update call always raises an
unexpected exception (neither a `DriverException` nor a `KeyError`). -/
def envRoutesOther : Env :=
  { envAllOk with routesUpd := fun _ => some Exc.other }

/-- A driver environment whose route-update call always raises a
`DriverException`. -/
def envRoutesDriverExc : Env :=
  { envAllOk with routesUpd := fun _ => some Exc.driverException }

/-- An admin-up port with id 1. -/
def port1 : Port := { id := 1, admin_state_up := true }

/-- The same port id, admin-down. -/
def port1down : Port := { id := 1, admin_state_up := false }

/-- A plain admin-up router with no ports and no gateway. -/
def router1 : Router :=
  { id := "r1", admin_state_up := true, gw_port := none, interfaces := [],
    ha_gw_ports := [], enable_snat := none }

/-- A second plain admin-up router. -/
def router2 : Router := { router1 with id := "r2" }

/-- `router1` with admin-state down. -/
def router1down : Router := { router1 with admin_state_up := false }

/-- A record for `router1` with one applied internal port whose desired
state no longer lists any internal port. -/
def record1 : RouterInfo :=
  { router_id := "r1", ex_gw_port := none, internal_ports := [port1],
    ha_gw_ports := [], router := router1, snat_enabled := some true }

/-- A fresh record for `router1` (no gateway port). -/
def recordNoGw : RouterInfo := RouterInfo.init "r1" router1

/-- The empty device context. -/
def ctxEmpty : CtxState :=
  { router_info := [], updated_routers := [], removed_routers := [],
    sync_devices := [], fullsync := false }

/-- A device context that already tracks `router1`. -/
def ctxWith1 : CtxState :=
  { router_info := [("r1", RouterInfo.init "r1" router1)],
    updated_routers := [], removed_routers := [], sync_devices := [],
    fullsync := false }

/-- The empty device context with the full-resync flag set. -/
def ctxFullsync : CtxState :=
  { router_info := [], updated_routers := [], removed_routers := [],
    sync_devices := [], fullsync := true }

/-- A service environment whose control-plane steps all succeed, whose
full fetch returns `router1`, and whose route-update driver call raises
an unexpected exception. -/
def envServiceOther : ServiceEnv :=
  { toEnv := envRoutesOther, sendEmptyCfg := none,
    fetchAll := Except.ok [router1],
    fetchByIds := fun _ => Except.ok [], deleteInvalidCfg := none,
    prepareFullsyncCall := none, clearFullsyncCall := none }

end PhyRSH

namespace HwVlan

/-- `DELETION_ATTEMPTS` (hw_vlan_trunking_driver.py line 34). -/
def DELETION_ATTEMPTS : Nat := 5

/-- Outcome of one `deleter(context, item_id)` call inside
`_delete_resources`: success, the expected exception type (for the
management port, `PortNotFound`), or any other `NeutronException`
(logged and retained).  A non-`NeutronException` exception would
propagate out of `_delete_resources` and is outside this oracle. -/
inductive DelOutcome where
  | ok
  | expectedExc
  | retainedExc
  deriving DecidableEq, Repr

/-- The loop body of `_delete_resources` (lines 130-139): iterate over a
copy (`todo`) of the resource-id set while mutating the live set: a
successful deletion or the expected exception removes the id; any other
`NeutronException` is logged and leaves it in place. -/
def delete_resources_loop (outcome : Nat → DelOutcome) :
    List Nat → List Nat → List Nat
  | [], live => live
  | i :: is, live =>
    match outcome i with
    | .ok => delete_resources_loop outcome is (live.erase i)
    | .expectedExc => delete_resources_loop outcome is (live.erase i)
    | .retainedExc => delete_resources_loop outcome is live

/-- `HwVLANTrunkingPlugDriver._delete_resources` (lines 128-139); returns
the mutated resource-id set. -/
def delete_resources (outcome : Nat → DelOutcome) (resource_ids : List Nat) :
    List Nat :=
  delete_resources_loop outcome resource_ids resource_ids

/-- The management port passed to `delete_hosting_device_resources`; only
its `id` is read. -/
structure MgmtPort where
  id : Nat
  deriving DecidableEq, Repr

/-- The `while mgmt_port is not None` loop of
`delete_hosting_device_resources` (lines 106-126).  `remaining` encodes
`DELETION_ATTEMPTS - attempts`, so `remaining = 0` is exactly the
`attempts == DELETION_ATTEMPTS` guard along the reachable states
(`attempts` starts at 1 and increments by 1 per iteration); `oracle`
gives the outcome of the `delete_port` call made on attempt number
`attempts`.  The result is the number of deletion attempts actually
performed (calls into `_delete_resources`) paired with `true` when the
loop aborted via the warning branch.  The `eventlet.sleep` between
attempts and the log statements have no observable effect here. -/
def dhdrLoop (oracle : Nat → DelOutcome) :
    Nat → Nat → Option MgmtPort → Nat × Bool
  | _, _, none => (0, false)
  | 0, _, some _ => (0, true)
  | remaining + 1, attempts, some port =>
    let ml := delete_resources (fun _ => oracle attempts) [port.id]
    let mp : Option MgmtPort := if ml = [] then none else some port
    let res := dhdrLoop oracle remaining (attempts + 1) mp
    (res.1 + 1, res.2)

/-- `HwVLANTrunkingPlugDriver.delete_hosting_device_resources`
(lines 104-126), specialized to its observable effect: how many deletion
attempts are made on the management port and whether the abort-warning
branch was taken.  The `**kwargs` resources are not used by this
driver. -/
def delete_hosting_device_resources (oracle : Nat → DelOutcome)
    (mgmt_port : Option MgmtPort) : Nat × Bool :=
  dhdrLoop oracle (DELETION_ATTEMPTS - 1) 1 mgmt_port

end HwVlan

namespace RpcInit

/-- The Python classes involved in the `PhyCiscoRoutingPluginApi`
constructor (phy_routing_svc_helper.py lines 77-95): `n_rpc.RpcProxy`
and its two direct subclasses declared in the source. -/
inductive PyClass where
  | objectCls
  | RpcProxy
  | CiscoRoutingPluginApi
  | PhyCiscoRoutingPluginApi
  deriving DecidableEq, Repr

/-- The method-resolution ancestors of each class, from the `class`
declarations in the source (both plugin API classes derive directly from
`n_rpc.RpcProxy`). -/
def ancestors : PyClass → List PyClass
  | .objectCls => [.objectCls]
  | .RpcProxy => [.RpcProxy, .objectCls]
  | .CiscoRoutingPluginApi => [.CiscoRoutingPluginApi, .RpcProxy, .objectCls]
  | .PhyCiscoRoutingPluginApi =>
    [.PhyCiscoRoutingPluginApi, .RpcProxy, .objectCls]

/-- `isinstance(obj, cls)` on the modelled hierarchy. -/
def isSubclass (c d : PyClass) : Bool := d ∈ ancestors c

/-- The exception raised by a failing constructor step. -/
inductive PyError where
  | typeError
  deriving DecidableEq, Repr

/-- CPython semantics of `super(target, obj)`: the bound-super object is
produced only when `isinstance(obj, target)` holds; otherwise a
`TypeError` ("obj must be an instance or subtype of type") is raised. -/
def superBind (target : PyClass) (objCls : PyClass) : Except PyError Unit :=
  if isSubclass objCls target then .ok () else .error .typeError

/-- `BASE_RPC_API_VERSION` (lines 80 and 90). -/
def BASE_RPC_API_VERSION : String := "1.1"

/-- The state `RpcProxy.__init__` would establish. -/
structure RpcProxyState where
  topic : String
  default_version : String
  deriving DecidableEq, Repr

/-- The attributes `PhyCiscoRoutingPluginApi.__init__` would establish if
it completed. -/
structure PluginApiState where
  proxy : RpcProxyState
  host : String
  deriving DecidableEq, Repr

/-- `PhyCiscoRoutingPluginApi.__init__` (lines 92-95): the body's first
statement is `super(CiscoRoutingPluginApi, self).__init__(...)` with
`self` an instance of `PhyCiscoRoutingPluginApi`, which is not a subclass
of `CiscoRoutingPluginApi`; only if that bind succeeded would the proxy
state and `self.host = host` be set. -/
def PhyCiscoRoutingPluginApi_init (topic host : String) :
    Except PyError PluginApiState :=
  match superBind .CiscoRoutingPluginApi .PhyCiscoRoutingPluginApi with
  | .error e => .error e
  | .ok _ =>
    .ok { proxy := { topic := topic,
                     default_version := BASE_RPC_API_VERSION },
          host := host }

/-- The topic constant `topics.L3PLUGIN` imported from
`neutron.common.topics`; its exact value is irrelevant here. -/
def topics_L3PLUGIN : String := "q-l3-plugin"

/-- `RoutingServiceHelperWithPhyContext.__init__` (lines 388-403) up to
its observable failure point: it constructs
`PhyCiscoRoutingPluginApi(topics.L3PLUGIN, host)` (line 392) before any
of the RPC / device-context setup; an exception there propagates, so the
helper's construction completes only if that constructor returns. -/
def RoutingServiceHelperWithPhyContext_init (host : String) :
    Except PyError PluginApiState :=
  PhyCiscoRoutingPluginApi_init topics_L3PLUGIN host

end RpcInit

namespace PhyRSH

/-! Helper lemmas about the port loops and `_process_router`. -/

lemma portLoop_events (op : Port → Option Exc) (evc : Port → Event)
    (upd : RouterInfo → Port → RouterInfo) :
    ∀ (ps : List Port) (ri : RouterInfo),
      ∀ ev ∈ (portLoop op evc upd ps ri).2.1, ∃ p, ev = evc p := by
  intro ps
  induction ps with
  | nil => intro ri ev hev; simp [portLoop] at hev
  | cons p ps ih =>
    intro ri ev hev
    cases hop : op p with
    | some e =>
      simp only [portLoop, hop, List.mem_singleton] at hev
      exact ⟨p, hev⟩
    | none =>
      simp only [portLoop, hop, List.mem_cons] at hev
      rcases hev with h | h
      · exact ⟨p, h⟩
      · exact ih (upd ri p) ev h

lemma portLoop_exc_none (op : Port → Option Exc) (evc : Port → Event)
    (upd : RouterInfo → Port → RouterInfo) (h : ∀ p, op p = none) :
    ∀ (ps : List Port) (ri : RouterInfo),
      (portLoop op evc upd ps ri).2.2 = none := by
  intro ps
  induction ps with
  | nil => intro ri; simp [portLoop]
  | cons p ps ih => intro ri; simp only [portLoop, h p]; exact ih (upd ri p)

lemma portLoop_acc_const {α : Type} (op : Port → Option Exc)
    (evc : Port → Event) (upd : RouterInfo → Port → RouterInfo)
    (f : RouterInfo → α) (hf : ∀ ri p, f (upd ri p) = f ri) :
    ∀ (ps : List Port) (ri : RouterInfo),
      f (portLoop op evc upd ps ri).1 = f ri := by
  intro ps
  induction ps with
  | nil => intro ri; simp [portLoop]
  | cons p ps ih =>
    intro ri
    cases hop : op p with
    | some e => simp [portLoop, hop]
    | none => simp only [portLoop, hop]; rw [ih (upd ri p), hf]

lemma portLoop_acc_append (op : Port → Option Exc) (evc : Port → Event)
    (upd : RouterInfo → Port → RouterInfo) (f : RouterInfo → List Port)
    (hf : ∀ ri p, f (upd ri p) = f ri ++ [p]) :
    ∀ (ps : List Port) (ri : RouterInfo),
      ∃ app : List Port, f (portLoop op evc upd ps ri).1 = f ri ++ app ∧
        ∀ p ∈ app, op p = none := by
  intro ps
  induction ps with
  | nil => intro ri; exact ⟨[], by simp [portLoop], by simp⟩
  | cons p ps ih =>
    intro ri
    cases hop : op p with
    | some e => exact ⟨[], by simp [portLoop, hop], by simp⟩
    | none =>
      obtain ⟨app, happ, hok⟩ := ih (upd ri p)
      refine ⟨p :: app, ?_, ?_⟩
      · simp only [portLoop, hop]
        rw [happ, hf]; simp
      · intro q hq
        rcases List.mem_cons.mp hq with h | h
        · rw [h]; exact hop
        · exact hok q h

lemma portLoop_acc_mono (op : Port → Option Exc) (evc : Port → Event)
    (upd : RouterInfo → Port → RouterInfo) (f : RouterInfo → List Port)
    (hf : ∀ ri p q, q ∈ f (upd ri p) → q ∈ f ri) :
    ∀ (ps : List Port) (ri : RouterInfo) (q : Port),
      q ∈ f (portLoop op evc upd ps ri).1 → q ∈ f ri := by
  intro ps
  induction ps with
  | nil => intro ri q h; simpa [portLoop] using h
  | cons p ps ih =>
    intro ri q h
    cases hop : op p with
    | some e => simpa [portLoop, hop] using h
    | none =>
      simp only [portLoop, hop] at h
      exact hf ri p q (ih (upd ri p) q h)

lemma portLoop_erase_keeps (op : Port → Option Exc) (evc : Port → Event)
    (upd : RouterInfo → Port → RouterInfo) (f : RouterInfo → List Port)
    (hf : ∀ ri p, f (upd ri p) = (f ri).erase p)
    (q : Port) (hq : op q ≠ none) :
    ∀ (ps : List Port) (ri : RouterInfo),
      q ∈ f ri → q ∈ f (portLoop op evc upd ps ri).1 := by
  intro ps
  induction ps with
  | nil => intro ri h; simpa [portLoop] using h
  | cons p ps ih =>
    intro ri h
    cases hop : op p with
    | some e => simpa [portLoop, hop] using h
    | none =>
      have hne : q ≠ p := by
        intro he; rw [he] at hq; exact hq hop
      simp only [portLoop, hop]
      exact ih (upd ri p) (by rw [hf]; exact (List.mem_erase_of_ne hne).mpr h)


/-- Case characterization of one `_process_router` pass: it stops at the
first failing port loop, and otherwise runs the floating-ip call (only
with a gateway port present) and the route call. -/
lemma processRouter_cases (env : Env) (ri : RouterInfo) :
    (∃ e, (prStage1 env ri).2.2 = some e ∧
      processRouter env ri =
        ((prStage1 env ri).1, (prStage1 env ri).2.1, some e)) ∨
    ((prStage1 env ri).2.2 = none ∧ ∃ e, (prStage2 env ri).2.2 = some e ∧
      processRouter env ri =
        ((prStage2 env ri).1,
         (prStage1 env ri).2.1 ++ (prStage2 env ri).2.1, some e)) ∨
    ((prStage1 env ri).2.2 = none ∧ (prStage2 env ri).2.2 = none ∧
     ∃ e, (prStage3 env ri).2.2 = some e ∧
      processRouter env ri =
        ((prStage3 env ri).1,
         (prStage1 env ri).2.1 ++
           ((prStage2 env ri).2.1 ++ (prStage3 env ri).2.1), some e)) ∨
    ((prStage1 env ri).2.2 = none ∧ (prStage2 env ri).2.2 = none ∧
     (prStage3 env ri).2.2 = none ∧ ∃ e, (prStage4 env ri).2.2 = some e ∧
      processRouter env ri =
        ((prStage4 env ri).1,
         (prStage1 env ri).2.1 ++
           ((prStage2 env ri).2.1 ++
             ((prStage3 env ri).2.1 ++ (prStage4 env ri).2.1)), some e)) ∨
    ((prStage1 env ri).2.2 = none ∧ (prStage2 env ri).2.2 = none ∧
     (prStage3 env ri).2.2 = none ∧ (prStage4 env ri).2.2 = none ∧
     ((ri.router.gw_port = none ∧
       processRouter env ri =
         ({ (prStage4 env ri).1 with ex_gw_port := none },
          (prStage1 env ri).2.1 ++
            ((prStage2 env ri).2.1 ++
              ((prStage3 env ri).2.1 ++
                ((prStage4 env ri).2.1 ++
                  [Event.routesUpdated ri.router_id]))),
          env.routesUpd ri.router_id)) ∨
      (∃ gw e, ri.router.gw_port = some gw ∧
        env.floatingIps ri.router_id gw = some e ∧
        processRouter env ri =
          ((prStage4 env ri).1,
           (prStage1 env ri).2.1 ++
             ((prStage2 env ri).2.1 ++
               ((prStage3 env ri).2.1 ++
                 ((prStage4 env ri).2.1 ++
                   [Event.floatingIpsProcessed ri.router_id gw]))),
           some e)) ∨
      (∃ gw, ri.router.gw_port = some gw ∧
        env.floatingIps ri.router_id gw = none ∧
        processRouter env ri =
          ({ (prStage4 env ri).1 with ex_gw_port := some gw },
           (prStage1 env ri).2.1 ++
             ((prStage2 env ri).2.1 ++
               ((prStage3 env ri).2.1 ++
                 ((prStage4 env ri).2.1 ++
                   (Event.floatingIpsProcessed ri.router_id gw ::
                     [Event.routesUpdated ri.router_id])))),
           env.routesUpd ri.router_id)))) := by
  rcases h1 : addInternalPorts env ri.router_id
      (get_port_set_diffs ri.internal_ports ri.router.interfaces).2 ri with
    ⟨ri1, tr1, e1⟩
  have hs1 : prStage1 env ri = (ri1, tr1, e1) := h1
  cases e1 with
  | some e =>
    exact Or.inl ⟨e, by rw [hs1], by simp [processRouter, h1, hs1]⟩
  | none =>
    rcases h2 : removeInternalPorts env ri.router_id
        (get_port_set_diffs ri.internal_ports ri.router.interfaces).1 ri1 with
      ⟨ri2, tr2, e2⟩
    have hs2 : prStage2 env ri = (ri2, tr2, e2) := by
      rw [prStage2, hs1]; exact h2
    cases e2 with
    | some e =>
      refine Or.inr (Or.inl ⟨by rw [hs1], e, by rw [hs2], ?_⟩)
      simp [processRouter, h1, h2, hs1, hs2]
    | none =>
      rcases h3 : addGwPorts env ri.router_id
          (get_port_set_diffs ri.ha_gw_ports ri.router.ha_gw_ports).2 ri2 with
        ⟨ri3, tr3, e3⟩
      have hs3 : prStage3 env ri = (ri3, tr3, e3) := by
        rw [prStage3, hs2]; exact h3
      cases e3 with
      | some e =>
        refine Or.inr (Or.inr (Or.inl ⟨by rw [hs1], by rw [hs2], e,
          by rw [hs3], ?_⟩))
        simp [processRouter, h1, h2, h3, hs1, hs2, hs3]
      | none =>
        rcases h4 : removeGwPorts env ri.router_id
            (get_port_set_diffs ri.ha_gw_ports ri.router.ha_gw_ports).1
            ri3 with ⟨ri4, tr4, e4⟩
        have hs4 : prStage4 env ri = (ri4, tr4, e4) := by
          rw [prStage4, hs3]; exact h4
        cases e4 with
        | some e =>
          refine Or.inr (Or.inr (Or.inr (Or.inl ⟨by rw [hs1], by rw [hs2],
            by rw [hs3], e, by rw [hs4], ?_⟩)))
          simp [processRouter, h1, h2, h3, h4, hs1, hs2, hs3, hs4]
        | none =>
          refine Or.inr (Or.inr (Or.inr (Or.inr ⟨by rw [hs1], by rw [hs2],
            by rw [hs3], by rw [hs4], ?_⟩)))
          cases hgw : ri.router.gw_port with
          | none =>
            refine Or.inl ⟨rfl, ?_⟩
            simp [processRouter, h1, h2, h3, h4, hs1, hs2, hs3, hs4, hgw,
              finishRoutes]
          | some gw =>
            cases hfip : env.floatingIps ri.router_id gw with
            | some e =>
              refine Or.inr (Or.inl ⟨gw, e, rfl, hfip, ?_⟩)
              simp [processRouter, h1, h2, h3, h4, hs1, hs2, hs3, hs4, hgw,
                hfip]
            | none =>
              refine Or.inr (Or.inr ⟨gw, rfl, hfip, ?_⟩)
              simp [processRouter, h1, h2, h3, h4, hs1, hs2, hs3, hs4, hgw,
                hfip, finishRoutes]

lemma prStage1_router_id (env : Env) (ri : RouterInfo) :
    (prStage1 env ri).1.router_id = ri.router_id := by
  unfold prStage1 addInternalPorts
  refine portLoop_acc_const _ _ _ (fun r => r.router_id) ?_ _ _
  intro r p; rfl

lemma prStage2_router_id (env : Env) (ri : RouterInfo) :
    (prStage2 env ri).1.router_id = ri.router_id := by
  unfold prStage2 removeInternalPorts
  refine Eq.trans (portLoop_acc_const _ _ _ (fun r => r.router_id) ?_ _ _)
    (prStage1_router_id env ri)
  intro r p; rfl

lemma prStage3_router_id (env : Env) (ri : RouterInfo) :
    (prStage3 env ri).1.router_id = ri.router_id := by
  unfold prStage3 addGwPorts
  refine Eq.trans (portLoop_acc_const _ _ _ (fun r => r.router_id) ?_ _ _)
    (prStage2_router_id env ri)
  intro r p; rfl

lemma prStage4_router_id (env : Env) (ri : RouterInfo) :
    (prStage4 env ri).1.router_id = ri.router_id := by
  unfold prStage4 removeGwPorts
  refine Eq.trans (portLoop_acc_const _ _ _ (fun r => r.router_id) ?_ _ _)
    (prStage3_router_id env ri)
  intro r p; rfl

/-- `_process_router` never changes the record id. -/
lemma processRouter_router_id (env : Env) (ri : RouterInfo) :
    (processRouter env ri).1.router_id = ri.router_id := by
  rcases processRouter_cases env ri with ⟨e, _, hpr⟩ | ⟨_, e, _, hpr⟩ |
    ⟨_, _, e, _, hpr⟩ | ⟨_, _, _, e, _, hpr⟩ | ⟨_, _, _, _, htail⟩
  · rw [hpr]; exact prStage1_router_id env ri
  · rw [hpr]; exact prStage2_router_id env ri
  · rw [hpr]; exact prStage3_router_id env ri
  · rw [hpr]; exact prStage4_router_id env ri
  · rcases htail with ⟨_, hpr⟩ | ⟨gw, e, _, _, hpr⟩ | ⟨gw, _, _, hpr⟩ <;>
      rw [hpr] <;> exact prStage4_router_id env ri

/-- Every event recorded while processing a router carries that router's
record id. -/
lemma processRouter_events_rid (env : Env) (ri : RouterInfo) :
    ∀ ev ∈ (processRouter env ri).2.1, ev.rid = ri.router_id := by
  have t1 : ∀ ev ∈ (prStage1 env ri).2.1, ev.rid = ri.router_id := by
    intro ev hev
    obtain ⟨p, hp⟩ := portLoop_events _ _ _ _ _ ev hev
    rw [hp]; rfl
  have t2 : ∀ ev ∈ (prStage2 env ri).2.1, ev.rid = ri.router_id := by
    intro ev hev
    obtain ⟨p, hp⟩ := portLoop_events _ _ _ _ _ ev hev
    rw [hp]; rfl
  have t3 : ∀ ev ∈ (prStage3 env ri).2.1, ev.rid = ri.router_id := by
    intro ev hev
    obtain ⟨p, hp⟩ := portLoop_events _ _ _ _ _ ev hev
    rw [hp]; rfl
  have t4 : ∀ ev ∈ (prStage4 env ri).2.1, ev.rid = ri.router_id := by
    intro ev hev
    obtain ⟨p, hp⟩ := portLoop_events _ _ _ _ _ ev hev
    rw [hp]; rfl
  have tApp : ∀ tail : List Event, (∀ ev ∈ tail, ev.rid = ri.router_id) →
      ∀ ev ∈ (prStage1 env ri).2.1 ++
        ((prStage2 env ri).2.1 ++
          ((prStage3 env ri).2.1 ++ ((prStage4 env ri).2.1 ++ tail))),
        ev.rid = ri.router_id := by
    intro tail ht ev hev
    rcases List.mem_append.mp hev with h | h
    · exact t1 ev h
    rcases List.mem_append.mp h with h | h
    · exact t2 ev h
    rcases List.mem_append.mp h with h | h
    · exact t3 ev h
    rcases List.mem_append.mp h with h | h
    · exact t4 ev h
    · exact ht ev h
  intro ev hev
  rcases processRouter_cases env ri with ⟨e, _, hpr⟩ | ⟨_, e, _, hpr⟩ |
    ⟨_, _, e, _, hpr⟩ | ⟨_, _, _, e, _, hpr⟩ | ⟨_, _, _, _, htail⟩
  · rw [hpr] at hev; exact t1 ev hev
  · rw [hpr] at hev
    rcases List.mem_append.mp hev with h | h
    · exact t1 ev h
    · exact t2 ev h
  · rw [hpr] at hev
    rcases List.mem_append.mp hev with h | h
    · exact t1 ev h
    rcases List.mem_append.mp h with h | h
    · exact t2 ev h
    · exact t3 ev h
  · rw [hpr] at hev
    exact tApp [] (by intro ev h; cases h) ev (by simpa using hev)
  · rcases htail with ⟨_, hpr⟩ | ⟨gw, e, _, _, hpr⟩ | ⟨gw, _, _, hpr⟩
    · rw [hpr] at hev
      refine tApp [Event.routesUpdated ri.router_id] ?_ ev hev
      intro ev h; rw [List.mem_singleton.mp h]; rfl
    · rw [hpr] at hev
      refine tApp [Event.floatingIpsProcessed ri.router_id gw] ?_ ev hev
      intro ev h; rw [List.mem_singleton.mp h]; rfl
    · rw [hpr] at hev
      refine tApp (Event.floatingIpsProcessed ri.router_id gw ::
        [Event.routesUpdated ri.router_id]) ?_ ev hev
      intro ev h
      rcases List.mem_cons.mp h with h | h
      · rw [h]; rfl
      · rw [List.mem_singleton.mp h]; rfl

/-- The applied-port invariants of one `_process_router` pass: a port can
appear in an applied-port list it was not already in only when its add
driver call succeeded, and a port whose remove driver call does not
succeed is never dropped from its applied-port list. -/
lemma processRouter_ports (env : Env) (ri : RouterInfo) :
    (∀ p, p ∉ ri.internal_ports →
      p ∈ (processRouter env ri).1.internal_ports →
      env.internalAdded ri.router_id p = none) ∧
    (∀ q, q ∈ ri.internal_ports → env.internalRemoved ri.router_id q ≠ none →
      q ∈ (processRouter env ri).1.internal_ports) ∧
    (∀ p, p ∉ ri.ha_gw_ports →
      p ∈ (processRouter env ri).1.ha_gw_ports →
      env.gatewayAdded ri.router_id p = none) ∧
    (∀ q, q ∈ ri.ha_gw_ports → env.gatewayRemoved ri.router_id q ≠ none →
      q ∈ (processRouter env ri).1.ha_gw_ports) := by
  obtain ⟨app1, happ1, hok1⟩ : ∃ app : List Port,
      (prStage1 env ri).1.internal_ports = ri.internal_ports ++ app ∧
      ∀ p ∈ app, env.internalAdded ri.router_id p = none := by
    unfold prStage1 addInternalPorts
    refine portLoop_acc_append _ _ _ (fun r => r.internal_ports) ?_ _ _
    intro r p; rfl
  have S1ha : (prStage1 env ri).1.ha_gw_ports = ri.ha_gw_ports := by
    unfold prStage1 addInternalPorts
    refine portLoop_acc_const _ _ _ (fun r => r.ha_gw_ports) ?_ _ _
    intro r p; rfl
  have S2mono : ∀ q : Port, q ∈ (prStage2 env ri).1.internal_ports →
      q ∈ (prStage1 env ri).1.internal_ports := by
    unfold prStage2 removeInternalPorts
    intro q hq
    refine portLoop_acc_mono _ _ _ (fun r => r.internal_ports) ?_ _ _ q hq
    intro r p x hx
    exact List.mem_of_mem_erase hx
  have S2keep : ∀ q : Port, env.internalRemoved ri.router_id q ≠ none →
      q ∈ (prStage1 env ri).1.internal_ports →
      q ∈ (prStage2 env ri).1.internal_ports := by
    unfold prStage2 removeInternalPorts
    intro q hq hmem
    refine portLoop_erase_keeps _ _ _ (fun r => r.internal_ports) ?_ q hq _ _
      hmem
    intro r p; rfl
  have S2ha : (prStage2 env ri).1.ha_gw_ports =
      (prStage1 env ri).1.ha_gw_ports := by
    unfold prStage2 removeInternalPorts
    refine portLoop_acc_const _ _ _ (fun r => r.ha_gw_ports) ?_ _ _
    intro r p; rfl
  have S3int : (prStage3 env ri).1.internal_ports =
      (prStage2 env ri).1.internal_ports := by
    unfold prStage3 addGwPorts
    refine portLoop_acc_const _ _ _ (fun r => r.internal_ports) ?_ _ _
    intro r p; rfl
  obtain ⟨app3, happ3, hok3⟩ : ∃ app : List Port,
      (prStage3 env ri).1.ha_gw_ports =
        (prStage2 env ri).1.ha_gw_ports ++ app ∧
      ∀ p ∈ app, env.gatewayAdded ri.router_id p = none := by
    unfold prStage3 addGwPorts
    refine portLoop_acc_append _ _ _ (fun r => r.ha_gw_ports) ?_ _ _
    intro r p; rfl
  have S4int : (prStage4 env ri).1.internal_ports =
      (prStage3 env ri).1.internal_ports := by
    unfold prStage4 removeGwPorts
    refine portLoop_acc_const _ _ _ (fun r => r.internal_ports) ?_ _ _
    intro r p; rfl
  have S4mono : ∀ q : Port, q ∈ (prStage4 env ri).1.ha_gw_ports →
      q ∈ (prStage3 env ri).1.ha_gw_ports := by
    unfold prStage4 removeGwPorts
    intro q hq
    refine portLoop_acc_mono _ _ _ (fun r => r.ha_gw_ports) ?_ _ _ q hq
    intro r p x hx
    exact List.mem_of_mem_erase hx
  have S4keep : ∀ q : Port, env.gatewayRemoved ri.router_id q ≠ none →
      q ∈ (prStage3 env ri).1.ha_gw_ports →
      q ∈ (prStage4 env ri).1.ha_gw_ports := by
    unfold prStage4 removeGwPorts
    intro q hq hmem
    refine portLoop_erase_keeps _ _ _ (fun r => r.ha_gw_ports) ?_ q hq _ _ hmem
    intro r p; rfl
  have HA1 : ∀ p : Port, p ∉ ri.internal_ports →
      p ∈ (prStage1 env ri).1.internal_ports →
      env.internalAdded ri.router_id p = none := by
    intro p hnot hmem
    rw [happ1] at hmem
    rcases List.mem_append.mp hmem with h | h
    · exact absurd h hnot
    · exact hok1 p h
  have HA2 : ∀ p : Port, p ∉ ri.internal_ports →
      p ∈ (prStage2 env ri).1.internal_ports →
      env.internalAdded ri.router_id p = none :=
    fun p hnot hmem => HA1 p hnot (S2mono p hmem)
  have HB1 : ∀ q : Port, q ∈ ri.internal_ports →
      q ∈ (prStage1 env ri).1.internal_ports := by
    intro q hq; rw [happ1]; exact List.mem_append_left _ hq
  have HB2 : ∀ q : Port, q ∈ ri.internal_ports →
      env.internalRemoved ri.router_id q ≠ none →
      q ∈ (prStage2 env ri).1.internal_ports :=
    fun q hq hfail => S2keep q hfail (HB1 q hq)
  have HC3 : ∀ p : Port, p ∉ ri.ha_gw_ports →
      p ∈ (prStage3 env ri).1.ha_gw_ports →
      env.gatewayAdded ri.router_id p = none := by
    intro p hnot hmem
    rw [happ3, S2ha, S1ha] at hmem
    rcases List.mem_append.mp hmem with h | h
    · exact absurd h hnot
    · exact hok3 p h
  have HC4 : ∀ p : Port, p ∉ ri.ha_gw_ports →
      p ∈ (prStage4 env ri).1.ha_gw_ports →
      env.gatewayAdded ri.router_id p = none :=
    fun p hnot hmem => HC3 p hnot (S4mono p hmem)
  have HD3 : ∀ q : Port, q ∈ ri.ha_gw_ports →
      q ∈ (prStage3 env ri).1.ha_gw_ports := by
    intro q hq; rw [happ3, S2ha, S1ha]; exact List.mem_append_left _ hq
  have HD4 : ∀ q : Port, q ∈ ri.ha_gw_ports →
      env.gatewayRemoved ri.router_id q ≠ none →
      q ∈ (prStage4 env ri).1.ha_gw_ports :=
    fun q hq hfail => S4keep q hfail (HD3 q hq)
  rcases processRouter_cases env ri with ⟨e, _, hpr⟩ | ⟨_, e, _, hpr⟩ |
    ⟨_, _, e, _, hpr⟩ | ⟨_, _, _, e, _, hpr⟩ | ⟨_, _, _, _, htail⟩
  · rw [hpr]
    refine ⟨HA1, fun q hq _ => HB1 q hq, ?_, ?_⟩
    · intro p hnot hmem; rw [S1ha] at hmem; exact absurd hmem hnot
    · intro q hq _; rw [S1ha]; exact hq
  · rw [hpr]
    refine ⟨HA2, fun q hq hf => HB2 q hq hf, ?_, ?_⟩
    · intro p hnot hmem; rw [S2ha, S1ha] at hmem; exact absurd hmem hnot
    · intro q hq _; rw [S2ha, S1ha]; exact hq
  · rw [hpr]
    refine ⟨?_, ?_, HC3, fun q hq _ => HD3 q hq⟩
    · intro p hnot hmem; rw [S3int] at hmem; exact HA2 p hnot hmem
    · intro q hq hf; rw [S3int]; exact HB2 q hq hf
  · rw [hpr]
    refine ⟨?_, ?_, HC4, HD4⟩
    · intro p hnot hmem; rw [S4int, S3int] at hmem; exact HA2 p hnot hmem
    · intro q hq hf; rw [S4int, S3int]; exact HB2 q hq hf
  · have K1 : ∀ p : Port, p ∉ ri.internal_ports →
        p ∈ (prStage4 env ri).1.internal_ports →
        env.internalAdded ri.router_id p = none := by
      intro p hnot hmem
      rw [S4int, S3int] at hmem
      exact HA2 p hnot hmem
    have K2 : ∀ q : Port, q ∈ ri.internal_ports →
        env.internalRemoved ri.router_id q ≠ none →
        q ∈ (prStage4 env ri).1.internal_ports := by
      intro q hq hf
      rw [S4int, S3int]
      exact HB2 q hq hf
    rcases htail with ⟨_, hpr⟩ | ⟨gw, e, _, _, hpr⟩ | ⟨gw, _, _, hpr⟩ <;>
      rw [hpr] <;>
      exact ⟨fun p hnot hmem => K1 p hnot hmem,
             fun q hq hf => K2 q hq hf,
             fun p hnot hmem => HC4 p hnot hmem,
             fun q hq hf => HD4 q hq hf⟩

/-- Without a gateway port, `_process_router` never issues the
floating-ip reconciliation call. -/
lemma processRouter_no_fip (env : Env) (ri : RouterInfo)
    (hgw : ri.router.gw_port = none) :
    ∀ gw, Event.floatingIpsProcessed ri.router_id gw ∉
      (processRouter env ri).2.1 := by
  have t1 : ∀ gw, Event.floatingIpsProcessed ri.router_id gw ∉
      (prStage1 env ri).2.1 := by
    intro gw h
    obtain ⟨p, hp⟩ := portLoop_events _ _ _ _ _ _ h
    exact Event.noConfusion hp
  have t2 : ∀ gw, Event.floatingIpsProcessed ri.router_id gw ∉
      (prStage2 env ri).2.1 := by
    intro gw h
    obtain ⟨p, hp⟩ := portLoop_events _ _ _ _ _ _ h
    exact Event.noConfusion hp
  have t3 : ∀ gw, Event.floatingIpsProcessed ri.router_id gw ∉
      (prStage3 env ri).2.1 := by
    intro gw h
    obtain ⟨p, hp⟩ := portLoop_events _ _ _ _ _ _ h
    exact Event.noConfusion hp
  have t4 : ∀ gw, Event.floatingIpsProcessed ri.router_id gw ∉
      (prStage4 env ri).2.1 := by
    intro gw h
    obtain ⟨p, hp⟩ := portLoop_events _ _ _ _ _ _ h
    exact Event.noConfusion hp
  intro gw h
  rcases processRouter_cases env ri with ⟨e, _, hpr⟩ | ⟨_, e, _, hpr⟩ |
    ⟨_, _, e, _, hpr⟩ | ⟨_, _, _, e, _, hpr⟩ | ⟨_, _, _, _, htail⟩
  · rw [hpr] at h; exact t1 gw h
  · rw [hpr] at h
    rcases List.mem_append.mp h with h | h
    · exact t1 gw h
    · exact t2 gw h
  · rw [hpr] at h
    rcases List.mem_append.mp h with h | h
    · exact t1 gw h
    rcases List.mem_append.mp h with h | h
    · exact t2 gw h
    · exact t3 gw h
  · rw [hpr] at h
    rcases List.mem_append.mp h with h | h
    · exact t1 gw h
    rcases List.mem_append.mp h with h | h
    · exact t2 gw h
    rcases List.mem_append.mp h with h | h
    · exact t3 gw h
    · exact t4 gw h
  · rcases htail with ⟨_, hpr⟩ | ⟨gw2, e, hgw2, _, _⟩ | ⟨gw2, hgw2, _, _⟩
    · rw [hpr] at h
      rcases List.mem_append.mp h with h | h
      · exact t1 gw h
      rcases List.mem_append.mp h with h | h
      · exact t2 gw h
      rcases List.mem_append.mp h with h | h
      · exact t3 gw h
      rcases List.mem_append.mp h with h | h
      · exact t4 gw h
      · exact Event.noConfusion (List.mem_singleton.mp h)
    · rw [hgw] at hgw2; exact Option.noConfusion hgw2
    · rw [hgw] at hgw2; exact Option.noConfusion hgw2

/-- A `_process_router` pass that raises no exception always issues the
route-update call. -/
lemma processRouter_routes_of_ok (env : Env) (ri : RouterInfo)
    (hok : (processRouter env ri).2.2 = none) :
    Event.routesUpdated ri.router_id ∈ (processRouter env ri).2.1 := by
  rcases processRouter_cases env ri with ⟨e, _, hpr⟩ | ⟨_, e, _, hpr⟩ |
    ⟨_, _, e, _, hpr⟩ | ⟨_, _, _, e, _, hpr⟩ | ⟨_, _, _, _, htail⟩
  · rw [hpr] at hok; exact Option.noConfusion hok
  · rw [hpr] at hok; exact Option.noConfusion hok
  · rw [hpr] at hok; exact Option.noConfusion hok
  · rw [hpr] at hok; exact Option.noConfusion hok
  · rcases htail with ⟨_, hpr⟩ | ⟨gw, e, _, _, hpr⟩ | ⟨gw, _, _, hpr⟩
    · rw [hpr]; simp
    · rw [hpr] at hok; exact Option.noConfusion hok
    · rw [hpr]; simp

/-- When every port-loop driver call and the floating-ip call succeed,
the exception of a `_process_router` pass is exactly the outcome of the
route-update call. -/
lemma processRouter_exc_eq (env : Env) (ri : RouterInfo)
    (h1 : ∀ p, env.internalAdded ri.router_id p = none)
    (h2 : ∀ p, env.internalRemoved ri.router_id p = none)
    (h3 : ∀ p, env.gatewayAdded ri.router_id p = none)
    (h4 : ∀ p, env.gatewayRemoved ri.router_id p = none)
    (h5 : ∀ gw, env.floatingIps ri.router_id gw = none) :
    (processRouter env ri).2.2 = env.routesUpd ri.router_id := by
  have e1 : (prStage1 env ri).2.2 = none := by
    unfold prStage1 addInternalPorts
    exact portLoop_exc_none _ _ _ h1 _ _
  have e2 : (prStage2 env ri).2.2 = none := by
    unfold prStage2 removeInternalPorts
    exact portLoop_exc_none _ _ _ h2 _ _
  have e3 : (prStage3 env ri).2.2 = none := by
    unfold prStage3 addGwPorts
    exact portLoop_exc_none _ _ _ h3 _ _
  have e4 : (prStage4 env ri).2.2 = none := by
    unfold prStage4 removeGwPorts
    exact portLoop_exc_none _ _ _ h4 _ _
  rcases processRouter_cases env ri with ⟨e, he, _⟩ | ⟨_, e, he, _⟩ |
    ⟨_, _, e, he, _⟩ | ⟨_, _, _, e, he, _⟩ | ⟨_, _, _, _, htail⟩
  · rw [e1] at he; exact Option.noConfusion he
  · rw [e2] at he; exact Option.noConfusion he
  · rw [e3] at he; exact Option.noConfusion he
  · rw [e4] at he; exact Option.noConfusion he
  · rcases htail with ⟨_, hpr⟩ | ⟨gw, e, _, hfip, _⟩ | ⟨gw, _, _, hpr⟩
    · rw [hpr]
    · rw [h5 gw] at hfip; exact Option.noConfusion hfip
    · rw [hpr]

lemma insertId_mem_self (l : List String) (i : String) : i ∈ insertId l i := by
  unfold insertId
  by_cases h : i ∈ l
  · simp only [if_pos h]; exact h
  · simp [h]

lemma insertId_mem_mono (l : List String) (i j : String) (h : i ∈ l) :
    i ∈ insertId l j := by
  unfold insertId
  by_cases hj : j ∈ l
  · simpa [hj]
  · simp [hj]
    exact Or.inl h

lemma riLookup_mem : ∀ {m : List (String × RouterInfo)} {k : String}
    {v : RouterInfo}, riLookup m k = some v → (k, v) ∈ m := by
  intro m
  induction m with
  | nil => intro k v h; exact Option.noConfusion h
  | cons kv rest ih =>
    obtain ⟨k2, v2⟩ := kv
    intro k v h
    rw [riLookup] at h
    by_cases hk : k2 = k
    · simp only [hk, if_pos rfl] at h
      injection h with h
      subst hk; subst h
      exact List.mem_cons_self _ _
    · simp only [if_neg hk] at h
      exact List.mem_cons_of_mem _ (ih h)

lemma riLookup_riInsert_ne : ∀ (m : List (String × RouterInfo))
    (k j : String) (v : RouterInfo), k ≠ j →
    riLookup (riInsert m k v) j = riLookup m j := by
  intro m
  induction m with
  | nil => intro k j v hne; simp [riInsert, riLookup, hne]
  | cons kv rest ih =>
    intro k j v hne
    rw [riInsert]
    by_cases hk : kv.1 = k
    · rw [if_pos hk, riLookup, riLookup]
      rw [if_neg hne, if_neg (hk ▸ hne)]
    · rw [if_neg hk, riLookup, riLookup]
      by_cases hj : kv.1 = j
      · rw [if_pos hj, if_pos hj]
      · rw [if_neg hj, if_neg hj]
        exact ih k j v hne

lemma riInsert_wf : ∀ (m : List (String × RouterInfo)) (k : String)
    (v : RouterInfo), (∀ kv ∈ m, kv.2.router_id = kv.1) →
    v.router_id = k →
    ∀ kv ∈ riInsert m k v, kv.2.router_id = kv.1 := by
  intro m
  induction m with
  | nil =>
    intro k v _ hv kv hkv
    rw [riInsert] at hkv
    rw [List.mem_singleton.mp hkv]
    exact hv
  | cons kv0 rest ih =>
    intro k v hm hv kv hkv
    rw [riInsert] at hkv
    by_cases hk : kv0.1 = k
    · rw [if_pos hk] at hkv
      rcases List.mem_cons.mp hkv with h | h
      · rw [h]; exact hv
      · exact hm kv (List.mem_cons_of_mem _ h)
    · rw [if_neg hk] at hkv
      rcases List.mem_cons.mp hkv with h | h
      · rw [h]; exact hm kv0 (List.mem_cons_self _ _)
      · exact ih k v (fun x hx => hm x (List.mem_cons_of_mem _ hx)) hv kv h

lemma riErase_subset (m : List (String × RouterInfo)) (k : String) :
    ∀ kv ∈ riErase m k, kv ∈ m := fun _ h => List.mem_of_mem_filter h

lemma riLookup_riErase_self : ∀ (m : List (String × RouterInfo)) (k : String),
    riLookup (riErase m k) k = none := by
  intro m
  induction m with
  | nil => intro k; rfl
  | cons kv rest ih =>
    intro k
    rw [riErase, List.filter]
    by_cases hk : kv.1 = k
    · simp only [hk, decide_True, Bool.not_true]
      exact ih k
    · simp only [decide_eq_true_eq, hk, decide_False, Bool.not_false]
      rw [riLookup, if_neg hk]
      exact ih k

lemma riLookup_riErase_none : ∀ (m : List (String × RouterInfo))
    (k j : String), riLookup m j = none →
    riLookup (riErase m k) j = none := by
  intro m
  induction m with
  | nil => intro k j _; rfl
  | cons kv rest ih =>
    intro k j h
    rw [riLookup] at h
    by_cases hj : kv.1 = j
    · rw [if_pos hj] at h; exact Option.noConfusion h
    · rw [if_neg hj] at h
      rw [riErase, List.filter]
      by_cases hk : kv.1 = k
      · simp only [hk, decide_True, Bool.not_true]
        exact ih k j h
      · simp only [decide_eq_true_eq, hk, decide_False, Bool.not_false]
        rw [riLookup, if_neg hj]
        exact ih k j h

lemma removePhase_updated : ∀ (ids : List String) (st : CtxState),
    (removePhase ids st).1.updated_routers = st.updated_routers := by
  intro ids
  induction ids with
  | nil => intro st; rfl
  | cons i ids ih => intro st; rw [removePhase]; exact ih _

lemma removePhase_removed : ∀ (ids : List String) (st : CtxState),
    (removePhase ids st).1.removed_routers = st.removed_routers := by
  intro ids
  induction ids with
  | nil => intro st; rfl
  | cons i ids ih => intro st; rw [removePhase]; exact ih _

lemma removePhase_sync : ∀ (ids : List String) (st : CtxState),
    (removePhase ids st).1.sync_devices = st.sync_devices := by
  intro ids
  induction ids with
  | nil => intro st; rfl
  | cons i ids ih => intro st; rw [removePhase]; exact ih _

lemma removePhase_fullsync : ∀ (ids : List String) (st : CtxState),
    (removePhase ids st).1.fullsync = st.fullsync := by
  intro ids
  induction ids with
  | nil => intro st; rfl
  | cons i ids ih => intro st; rw [removePhase]; exact ih _

lemma removePhase_events : ∀ (ids : List String) (st : CtxState),
    (removePhase ids st).2 = ids.map Event.routerRemoved := by
  intro ids
  induction ids with
  | nil => intro st; rfl
  | cons i ids ih => intro st; rw [removePhase, List.map, ih]; rfl

lemma removePhase_wf : ∀ (ids : List String) (st : CtxState),
    (∀ kv ∈ st.router_info, kv.2.router_id = kv.1) →
    ∀ kv ∈ (removePhase ids st).1.router_info, kv.2.router_id = kv.1 := by
  intro ids
  induction ids with
  | nil => intro st h; exact h
  | cons i ids ih =>
    intro st h
    rw [removePhase]
    exact ih _ (fun kv hkv => h kv (riErase_subset _ _ kv hkv))

lemma removePhase_lookup_none_of : ∀ (ids : List String) (st : CtxState)
    (j : String), riLookup st.router_info j = none →
    riLookup (removePhase ids st).1.router_info j = none := by
  intro ids
  induction ids with
  | nil => intro st j h; exact h
  | cons i ids ih =>
    intro st j h
    rw [removePhase]
    exact ih _ j (riLookup_riErase_none _ i j h)

lemma removePhase_lookup_none_mem : ∀ (ids : List String) (st : CtxState)
    (j : String), j ∈ ids →
    riLookup (removePhase ids st).1.router_info j = none := by
  intro ids
  induction ids with
  | nil => intro st j h; exact absurd h (List.not_mem_nil j)
  | cons i ids ih =>
    intro st j h
    rcases List.mem_cons.mp h with h | h
    · subst h
      rw [removePhase]
      exact removePhase_lookup_none_of ids _ j (riLookup_riErase_self _ j)
    · rw [removePhase]
      exact ih _ j h

lemma mem_adjust (r : Router) (l : List Router) :
    r ∈ adjust_router_list l ↔ r ∈ l := by
  unfold adjust_router_list
  cases hf : l.find? (fun x => x.id == PHYSICAL_GLOBAL_ROUTER_ID) with
  | none => exact Iff.rfl
  | some g =>
    have hg : g ∈ l := List.mem_of_find?_eq_some hf
    constructor
    · intro h
      rcases List.mem_append.mp h with h | h
      · exact List.mem_of_mem_erase h
      · rw [List.mem_singleton.mp h]; exact hg
    · intro h
      by_cases hrg : r = g
      · subst hrg; exact List.mem_append_right _ (List.mem_singleton.mpr rfl)
      · exact List.mem_append_left _ ((List.mem_erase_of_ne hrg).mpr h)

lemma processLoop_updated_mono (env : Env) (deleted : List String) :
    ∀ (rs : List Router) (st : CtxState) (i : String),
      i ∈ st.updated_routers →
      i ∈ (processLoop env deleted rs st).1.updated_routers := by
  intro rs
  induction rs with
  | nil => intro st i h; exact h
  | cons r rs ih =>
    intro st i h
    by_cases hdel : r.id ∈ deleted
    · rw [processLoop, if_pos hdel]; exact ih st i h
    · by_cases hadm : r.admin_state_up = false
      · rw [processLoop, if_neg hdel, if_pos hadm]; exact ih st i h
      · rw [processLoop, if_neg hdel, if_neg hadm]
        cases hexc : (processRouter env
            (routerSetter (currentRecord st r) r)).2.2 with
        | none => simp only [hexc]; exact ih _ i h
        | some e =>
          cases e with
          | keyError =>
            simp only [hexc]
            exact ih _ i (insertId_mem_mono _ i r.id h)
          | driverException =>
            simp only [hexc]
            exact ih _ i (insertId_mem_mono _ i r.id h)
          | messagingTimeout => simp only [hexc]; exact h
          | other => simp only [hexc]; exact h

lemma processLoop_fullsync_mono (env : Env) (deleted : List String) :
    ∀ (rs : List Router) (st : CtxState), st.fullsync = true →
      (processLoop env deleted rs st).1.fullsync = true := by
  intro rs
  induction rs with
  | nil => intro st h; exact h
  | cons r rs ih =>
    intro st h
    by_cases hdel : r.id ∈ deleted
    · rw [processLoop, if_pos hdel]; exact ih st h
    · by_cases hadm : r.admin_state_up = false
      · rw [processLoop, if_neg hdel, if_pos hadm]; exact ih st h
      · rw [processLoop, if_neg hdel, if_neg hadm]
        cases hexc : (processRouter env
            (routerSetter (currentRecord st r) r)).2.2 with
        | none => simp only [hexc]; exact ih _ h
        | some e =>
          cases e with
          | keyError => simp only [hexc]; exact ih _ rfl
          | driverException => simp only [hexc]; exact ih _ rfl
          | messagingTimeout => simp only [hexc]; exact h
          | other => simp only [hexc]; exact h

lemma processLoop_fullsync_stable (env : Env) (deleted : List String)
    (hsafe : ∀ ri : RouterInfo,
      (processRouter env ri).2.2 ≠ some Exc.driverException ∧
      (processRouter env ri).2.2 ≠ some Exc.keyError) :
    ∀ (rs : List Router) (st : CtxState),
      (processLoop env deleted rs st).1.fullsync = st.fullsync := by
  intro rs
  induction rs with
  | nil => intro st; rfl
  | cons r rs ih =>
    intro st
    by_cases hdel : r.id ∈ deleted
    · rw [processLoop, if_pos hdel]; exact ih st
    · by_cases hadm : r.admin_state_up = false
      · rw [processLoop, if_neg hdel, if_pos hadm]; exact ih st
      · rw [processLoop, if_neg hdel, if_neg hadm]
        cases hexc : (processRouter env
            (routerSetter (currentRecord st r) r)).2.2 with
        | none => simp only [hexc]; exact ih _
        | some e =>
          cases e with
          | keyError =>
            exact absurd hexc (hsafe (routerSetter (currentRecord st r) r)).2
          | driverException =>
            exact absurd hexc (hsafe (routerSetter (currentRecord st r) r)).1
          | messagingTimeout => simp only [hexc]
          | other => simp only [hexc]

lemma currentRecord_router_id (st : CtxState) (r : Router)
    (hwf : ∀ kv ∈ st.router_info, kv.2.router_id = kv.1) :
    (currentRecord st r).router_id = r.id := by
  unfold currentRecord
  cases hl : riLookup st.router_info r.id with
  | none => rfl
  | some ri => exact hwf _ (riLookup_mem hl)

lemma processLoop_wf (env : Env) (deleted : List String) :
    ∀ (rs : List Router) (st : CtxState),
      (∀ kv ∈ st.router_info, kv.2.router_id = kv.1) →
      ∀ kv ∈ (processLoop env deleted rs st).1.router_info,
        kv.2.router_id = kv.1 := by
  intro rs
  induction rs with
  | nil => intro st h; exact h
  | cons r rs ih =>
    intro st hwf
    by_cases hdel : r.id ∈ deleted
    · rw [processLoop, if_pos hdel]; exact ih st hwf
    · by_cases hadm : r.admin_state_up = false
      · rw [processLoop, if_neg hdel, if_pos hadm]; exact ih st hwf
      · rw [processLoop, if_neg hdel, if_neg hadm]
        have hrid : (processRouter env
            (routerSetter (currentRecord st r) r)).1.router_id = r.id := by
          rw [processRouter_router_id]
          exact currentRecord_router_id st r hwf
        have hwf1 : ∀ kv ∈ riInsert st.router_info r.id
            (processRouter env (routerSetter (currentRecord st r) r)).1,
            kv.2.router_id = kv.1 :=
          riInsert_wf _ _ _ hwf hrid
        cases hexc : (processRouter env
            (routerSetter (currentRecord st r) r)).2.2 with
        | none => simp only [hexc]; exact ih _ hwf1
        | some e =>
          cases e with
          | keyError => simp only [hexc]; exact ih _ hwf1
          | driverException => simp only [hexc]; exact ih _ hwf1
          | messagingTimeout => simp only [hexc]; exact hwf1
          | other => simp only [hexc]; exact hwf1

lemma processLoop_events (env : Env) (deleted : List String) :
    ∀ (rs : List Router) (st : CtxState),
      (∀ kv ∈ st.router_info, kv.2.router_id = kv.1) →
      ∀ ev ∈ (processLoop env deleted rs st).2.1,
        ∃ r, r ∈ rs ∧ r.id ∉ deleted ∧ r.admin_state_up = true ∧
          ev.rid = r.id := by
  intro rs
  induction rs with
  | nil => intro st _ ev hev; exact absurd hev (List.not_mem_nil ev)
  | cons r rs ih =>
    intro st hwf ev hev
    by_cases hdel : r.id ∈ deleted
    · rw [processLoop, if_pos hdel] at hev
      obtain ⟨r2, hr2, h⟩ := ih st hwf ev hev
      exact ⟨r2, List.mem_cons_of_mem _ hr2, h⟩
    · by_cases hadm : r.admin_state_up = false
      · rw [processLoop, if_neg hdel, if_pos hadm] at hev
        obtain ⟨r2, hr2, h⟩ := ih st hwf ev hev
        exact ⟨r2, List.mem_cons_of_mem _ hr2, h⟩
      · rw [processLoop, if_neg hdel, if_neg hadm] at hev
        have hup : r.admin_state_up = true := by
          cases h : r.admin_state_up
          · exact absurd h hadm
          · rfl
        have hprrid : ∀ ev2 ∈ (processRouter env
            (routerSetter (currentRecord st r) r)).2.1, ev2.rid = r.id := by
          intro ev2 hev2
          rw [processRouter_events_rid _ _ ev2 hev2]
          exact currentRecord_router_id st r hwf
        have hrid : (processRouter env
            (routerSetter (currentRecord st r) r)).1.router_id = r.id := by
          rw [processRouter_router_id]
          exact currentRecord_router_id st r hwf
        have hwf1 : ∀ kv ∈ riInsert st.router_info r.id
            (processRouter env (routerSetter (currentRecord st r) r)).1,
            kv.2.router_id = kv.1 :=
          riInsert_wf _ _ _ hwf hrid
        cases hexc : (processRouter env
            (routerSetter (currentRecord st r) r)).2.2 with
        | none =>
          simp only [hexc] at hev
          rcases List.mem_append.mp hev with h | h
          · exact ⟨r, List.mem_cons_self _ _, hdel, hup, hprrid ev h⟩
          · obtain ⟨r2, hr2, hh⟩ := ih _ hwf1 ev h
            exact ⟨r2, List.mem_cons_of_mem _ hr2, hh⟩
        | some e =>
          cases e with
          | keyError =>
            simp only [hexc] at hev
            rcases List.mem_append.mp hev with h | h
            · exact ⟨r, List.mem_cons_self _ _, hdel, hup, hprrid ev h⟩
            · obtain ⟨r2, hr2, hh⟩ := ih _ hwf1 ev h
              exact ⟨r2, List.mem_cons_of_mem _ hr2, hh⟩
          | driverException =>
            simp only [hexc] at hev
            rcases List.mem_append.mp hev with h | h
            · exact ⟨r, List.mem_cons_self _ _, hdel, hup, hprrid ev h⟩
            · obtain ⟨r2, hr2, hh⟩ := ih _ hwf1 ev h
              exact ⟨r2, List.mem_cons_of_mem _ hr2, hh⟩
          | messagingTimeout =>
            simp only [hexc] at hev
            exact ⟨r, List.mem_cons_self _ _, hdel, hup, hprrid ev hev⟩
          | other =>
            simp only [hexc] at hev
            exact ⟨r, List.mem_cons_self _ _, hdel, hup, hprrid ev hev⟩

lemma processLoop_lookup_none (env : Env) (deleted : List String)
    (j : String) (hj : j ∈ deleted) :
    ∀ (rs : List Router) (st : CtxState),
      riLookup st.router_info j = none →
      riLookup (processLoop env deleted rs st).1.router_info j = none := by
  intro rs
  induction rs with
  | nil => intro st h; exact h
  | cons r rs ih =>
    intro st h
    by_cases hdel : r.id ∈ deleted
    · rw [processLoop, if_pos hdel]; exact ih st h
    · by_cases hadm : r.admin_state_up = false
      · rw [processLoop, if_neg hdel, if_pos hadm]; exact ih st h
      · rw [processLoop, if_neg hdel, if_neg hadm]
        have hne : r.id ≠ j := fun he => hdel (he ▸ hj)
        have h1 : riLookup (riInsert st.router_info r.id
            (processRouter env (routerSetter (currentRecord st r) r)).1) j =
            none := by
          rw [riLookup_riInsert_ne _ _ _ _ hne]; exact h
        cases hexc : (processRouter env
            (routerSetter (currentRecord st r) r)).2.2 with
        | none => simp only [hexc]; exact ih _ h1
        | some e =>
          cases e with
          | keyError => simp only [hexc]; exact ih _ h1
          | driverException => simp only [hexc]; exact ih _ h1
          | messagingTimeout => simp only [hexc]; exact h1
          | other => simp only [hexc]; exact h1

lemma processRouters_eq (env : Env) (st : CtxState)
    (routers removed_routers : List Router) (device_id : Nat)
    (all_routers : Bool) :
    processRouters env st routers removed_routers device_id all_routers =
      (if (processLoop env (deletedIds st routers removed_routers all_routers)
            (adjust_router_list routers)
            (afterRemovals st routers removed_routers all_routers)).2.2 then
        ({ (processLoop env
              (deletedIds st routers removed_routers all_routers)
              (adjust_router_list routers)
              (afterRemovals st routers removed_routers all_routers)).1 with
           sync_devices := insertNat
             (processLoop env
               (deletedIds st routers removed_routers all_routers)
               (adjust_router_list routers)
               (afterRemovals st routers removed_routers
                 all_routers)).1.sync_devices device_id },
         (removePhase (toRemoveIds st routers all_routers) st).2 ++
           (removePhase (removed_routers.map (fun r => r.id))
             (removePhase (toRemoveIds st routers all_routers) st).1).2 ++
           (processLoop env
             (deletedIds st routers removed_routers all_routers)
             (adjust_router_list routers)
             (afterRemovals st routers removed_routers all_routers)).2.1)
       else
        ((processLoop env (deletedIds st routers removed_routers all_routers)
            (adjust_router_list routers)
            (afterRemovals st routers removed_routers all_routers)).1,
         (removePhase (toRemoveIds st routers all_routers) st).2 ++
           (removePhase (removed_routers.map (fun r => r.id))
             (removePhase (toRemoveIds st routers all_routers) st).1).2 ++
           (processLoop env
             (deletedIds st routers removed_routers all_routers)
             (adjust_router_list routers)
             (afterRemovals st routers removed_routers all_routers)).2.1)) :=
  rfl

lemma processRouters_trace (env : Env) (st : CtxState)
    (routers removed_routers : List Router) (device_id : Nat)
    (all_routers : Bool) :
    (processRouters env st routers removed_routers device_id all_routers).2 =
      (toRemoveIds st routers all_routers).map Event.routerRemoved ++
      (removed_routers.map (fun r => r.id)).map Event.routerRemoved ++
      (processLoop env (deletedIds st routers removed_routers all_routers)
        (adjust_router_list routers)
        (afterRemovals st routers removed_routers all_routers)).2.1 := by
  rw [processRouters_eq]
  split <;> rw [removePhase_events, removePhase_events]

lemma processRouters_router_info (env : Env) (st : CtxState)
    (routers removed_routers : List Router) (device_id : Nat)
    (all_routers : Bool) :
    (processRouters env st routers removed_routers device_id
      all_routers).1.router_info =
    (processLoop env (deletedIds st routers removed_routers all_routers)
      (adjust_router_list routers)
      (afterRemovals st routers removed_routers all_routers)).1.router_info
    := by
  rw [processRouters_eq]
  split <;> rfl

lemma processRouters_fullsync_eq (env : Env) (st : CtxState)
    (routers removed_routers : List Router) (device_id : Nat)
    (all_routers : Bool) :
    (processRouters env st routers removed_routers device_id
      all_routers).1.fullsync =
    (processLoop env (deletedIds st routers removed_routers all_routers)
      (adjust_router_list routers)
      (afterRemovals st routers removed_routers all_routers)).1.fullsync
    := by
  rw [processRouters_eq]
  split <;> rfl

/-- Claim C1 (amended).  A router all of whose occurrences in the processed list
are admin-down is never diffed or applied: the only trace events carrying
its id are `routerRemoved` teardowns.  In an incremental pass
(`all_routers = false`), if such a router is among the fetched routers and
has an existing record, the record is torn down and discarded — it is not
retained. -/
theorem C1_theorem (env : Env) (st : CtxState)
    (routers removed_routers : List Router) (device_id : Nat)
    (all_routers : Bool) (rid : String)
    (hwf : ∀ kv ∈ st.router_info, kv.2.router_id = kv.1)
    (hdown : ∀ r ∈ routers, r.id = rid → r.admin_state_up = false) :
    (∀ ev ∈ (processRouters env st routers removed_routers device_id
        all_routers).2, ev.rid = rid → ev = Event.routerRemoved rid) ∧
    (all_routers = false → rid ∈ routers.map (fun r => r.id) →
      rid ∈ st.router_info.map (fun kv => kv.1) →
      Event.routerRemoved rid ∈ (processRouters env st routers
        removed_routers device_id all_routers).2 ∧
      riLookup (processRouters env st routers removed_routers device_id
        all_routers).1.router_info rid = none) := by
  have hwf2 : ∀ kv ∈ (afterRemovals st routers removed_routers
      all_routers).router_info, kv.2.router_id = kv.1 := by
    unfold afterRemovals
    exact removePhase_wf _ _ (removePhase_wf _ _ hwf)
  constructor
  · intro ev hev hrid
    rw [processRouters_trace] at hev
    rcases List.mem_append.mp hev with h | h
    rotate_left
    · obtain ⟨r2, hr2, _, hup2, hrid2⟩ := processLoop_events _ _ _ _ hwf2 ev h
      have hr2mem : r2 ∈ routers := (mem_adjust r2 routers).mp hr2
      have : r2.admin_state_up = false := hdown r2 hr2mem (by
        rw [← hrid2]; exact hrid.symm ▸ rfl)
      rw [hup2] at this
      exact absurd this (by simp)
    rcases List.mem_append.mp h with h | h <;>
      · obtain ⟨i, _, hi⟩ := List.mem_map.mp h
        rw [← hi]
        rw [← hi] at hrid
        exact congrArg Event.routerRemoved hrid
  · intro hall hin hkeys
    have hnotcur : rid ∉ curRouterIds routers := by
      intro hc
      obtain ⟨r2, hr2, hid⟩ := List.mem_map.mp hc
      have h2 := List.mem_filter.mp hr2
      have hdown2 := hdown r2 h2.1 hid
      rw [hdown2] at h2
      exact absurd h2.2 (by simp)
    have hprev : rid ∈ prevRouterIds st routers all_routers := by
      unfold prevRouterIds
      rw [hall]
      simp only [Bool.false_eq_true, if_false]
      exact List.mem_filter.mpr ⟨hkeys, by simpa using hin⟩
    have htoRem : rid ∈ toRemoveIds st routers all_routers := by
      unfold toRemoveIds
      exact List.mem_filter.mpr ⟨hprev, by simpa using hnotcur⟩
    constructor
    · rw [processRouters_trace]
      exact List.mem_append_left _ (List.mem_append_left _
        (List.mem_map.mpr ⟨rid, htoRem, rfl⟩))
    · rw [processRouters_router_info]
      apply processLoop_lookup_none env _ rid
        (List.mem_append_left _ htoRem)
      unfold afterRemovals
      exact removePhase_lookup_none_of _ _ rid
        (removePhase_lookup_none_mem _ st rid htoRem)

/-- Claim C7.  When `_process_router` raises a `DriverException` for one router
of the batch, the loop requeues that router id into `updated_routers`,
sets the device `fullsync` flag, stores the partially-mutated record, and
continues with the remaining routers of the batch. -/
theorem C7_theorem (env : Env) (deleted : List String) (r : Router)
    (rest : List Router) (st : CtxState) (ri2 : RouterInfo)
    (evs : List Event) (hdel : r.id ∉ deleted)
    (hup : r.admin_state_up = true)
    (hexc : processRouter env (routerSetter (currentRecord st r) r) =
      (ri2, evs, some Exc.driverException)) :
    processLoop env deleted (r :: rest) st =
      ((processLoop env deleted rest
          { st with router_info := riInsert st.router_info r.id ri2,
                    updated_routers := insertId st.updated_routers r.id,
                    fullsync := true }).1,
       evs ++ (processLoop env deleted rest
          { st with router_info := riInsert st.router_info r.id ri2,
                    updated_routers := insertId st.updated_routers r.id,
                    fullsync := true }).2.1,
       (processLoop env deleted rest
          { st with router_info := riInsert st.router_info r.id ri2,
                    updated_routers := insertId st.updated_routers r.id,
                    fullsync := true }).2.2) ∧
    r.id ∈ (processLoop env deleted (r :: rest) st).1.updated_routers ∧
    (processLoop env deleted (r :: rest) st).1.fullsync = true := by
  have hadm : ¬ (r.admin_state_up = false) := by rw [hup]; simp
  have heq : processLoop env deleted (r :: rest) st =
      ((processLoop env deleted rest
          { st with router_info := riInsert st.router_info r.id ri2,
                    updated_routers := insertId st.updated_routers r.id,
                    fullsync := true }).1,
       evs ++ (processLoop env deleted rest
          { st with router_info := riInsert st.router_info r.id ri2,
                    updated_routers := insertId st.updated_routers r.id,
                    fullsync := true }).2.1,
       (processLoop env deleted rest
          { st with router_info := riInsert st.router_info r.id ri2,
                    updated_routers := insertId st.updated_routers r.id,
                    fullsync := true }).2.2) := by
    rw [processLoop, if_neg hdel, if_neg hadm, hexc]
  refine ⟨heq, ?_, ?_⟩
  · rw [heq]
    exact processLoop_updated_mono env deleted rest _ r.id
      (insertId_mem_self st.updated_routers r.id)
  · rw [heq]
    exact processLoop_fullsync_mono env deleted rest _ rfl

/-- Claim C3 (amended).  In a full-resync pass, `fullsync` is cleared at the
start of the pass body; it is `true` on return whenever any step executed
directly inside `process_service`'s own `try` block fails (device
heartbeat, fetch, invalid-config cleanup, fullsync preparation, or the
final `clear_fullsync`), but an error raised while processing the routers
that is neither a `DriverException` nor a `KeyError` is swallowed inside
`_process_routers` and leaves the flag cleared. -/
theorem C3_theorem (env : ServiceEnv) (st : CtxState)
    (hfs : st.fullsync = true) :
    ((env.sendEmptyCfg ≠ none ∨ (∃ e, env.fetchAll = Except.error e) ∨
      env.deleteInvalidCfg ≠ none ∨ env.prepareFullsyncCall ≠ none ∨
      env.clearFullsyncCall ≠ none) →
      (process_service env st).1.fullsync = true) ∧
    (env.sendEmptyCfg = none → env.deleteInvalidCfg = none →
      env.prepareFullsyncCall = none → env.clearFullsyncCall = none →
      ∀ rs : List Router, env.fetchAll = Except.ok rs →
      (∀ ri : RouterInfo,
        (processRouter env.toEnv ri).2.2 ≠ some Exc.driverException ∧
        (processRouter env.toEnv ri).2.2 ≠ some Exc.keyError) →
      (process_service env st).1.fullsync = false) := by
  constructor
  · intro hbad
    cases hse : env.sendEmptyCfg with
    | some e => simp [process_service, hse]
    | none =>
      cases hfa : env.fetchAll with
      | error e => simp [process_service, hse, hfs, hfa]
      | ok rs =>
        cases hdi : env.deleteInvalidCfg with
        | some e => simp [process_service, hse, hfs, hfa, hdi]
        | none =>
          cases hpf : env.prepareFullsyncCall with
          | some e => simp [process_service, hse, hfs, hfa, hdi, hpf]
          | none =>
            cases hcf : env.clearFullsyncCall with
            | some e => simp [process_service, hse, hfs, hfa, hdi, hpf, hcf]
            | none =>
              exfalso
              rcases hbad with h | ⟨e, h⟩ | h | h | h
              · exact h hse
              · rw [hfa] at h; exact Except.noConfusion h
              · exact h hdi
              · exact h hpf
              · exact h hcf
  · intro hse hdi hpf hcf rs hfa hsafe
    have hstable : ∀ s : CtxState, s.fullsync = false →
        (processRouters env.toEnv s rs [] 0 true).1.fullsync = false := by
      intro s hs
      rw [processRouters_fullsync_eq,
        processLoop_fullsync_stable env.toEnv _ hsafe]
      unfold afterRemovals
      rw [removePhase_fullsync, removePhase_fullsync]
      exact hs
    have hred : (process_service env st).1.fullsync =
        (processRouters env.toEnv
          { st with fullsync := false, updated_routers := [],
                    removed_routers := [], sync_devices := [],
                    router_info := [] } rs [] 0 true).1.fullsync := by
      simp [process_service, hse, hfs, hfa, hdi, hpf, hcf]
    rw [hred]
    exact hstable _ rfl

/-- Claim C6 (amended): the computed diff equals the amended description, with
a membership characterization spelling the two filters out. -/
theorem C6_theorem (existing current : List Port) :
    get_port_set_diffs existing current =
      (amendedOldPorts existing current, amendedNewPorts existing current) ∧
    ∀ p : Port,
      (p ∈ (get_port_set_diffs existing current).1 ↔
        p ∈ existing ∧ ∀ q ∈ current, q.admin_state_up = true →
          q.id ≠ p.id) ∧
      (p ∈ (get_port_set_diffs existing current).2 ↔
        p ∈ current ∧
        (∃ q ∈ current, q.admin_state_up = true ∧ q.id = p.id) ∧
        ∀ q ∈ existing, q.id ≠ p.id) := by
  refine ⟨rfl, ?_⟩
  intro p
  constructor
  · constructor
    · intro h
      have h2 := List.mem_filter.mp h
      refine ⟨h2.1, ?_⟩
      intro q hq hup he
      have hb := h2.2
      rw [Bool.not_eq_true', decide_eq_false_iff_not] at hb
      exact hb (List.mem_map.mpr ⟨q, List.mem_filter.mpr ⟨hq, hup⟩, he⟩)
    · rintro ⟨hp, hall⟩
      refine List.mem_filter.mpr ⟨hp, ?_⟩
      rw [Bool.not_eq_true', decide_eq_false_iff_not]
      intro hmem
      obtain ⟨q, hqf, he⟩ := List.mem_map.mp hmem
      have h3 := List.mem_filter.mp hqf
      exact hall q h3.1 h3.2 he
  · constructor
    · intro h
      have h2 := List.mem_filter.mp h
      have hb := h2.2
      rw [Bool.and_eq_true] at hb
      obtain ⟨hb1, hb2⟩ := hb
      rw [decide_eq_true_eq] at hb1
      rw [Bool.not_eq_true', decide_eq_false_iff_not] at hb2
      obtain ⟨q, hqf, he⟩ := List.mem_map.mp hb1
      have h3 := List.mem_filter.mp hqf
      refine ⟨h2.1, ⟨q, h3.1, h3.2, he⟩, ?_⟩
      intro q2 hq2 he2
      exact hb2 (List.mem_map.mpr ⟨q2, hq2, he2⟩)
    · rintro ⟨hp, ⟨q, hq, hup, he⟩, hnex⟩
      refine List.mem_filter.mpr ⟨hp, ?_⟩
      rw [Bool.and_eq_true]
      constructor
      · rw [decide_eq_true_eq]
        exact List.mem_map.mpr ⟨q, List.mem_filter.mpr ⟨hq, hup⟩, he⟩
      · rw [Bool.not_eq_true', decide_eq_false_iff_not]
        intro hmem
        obtain ⟨q2, hq2, he2⟩ := List.mem_map.mp hmem
        exact hnex q2 hq2 he2


lemma envRoutesOther_exc (ri : RouterInfo) :
    (processRouter envRoutesOther ri).2.2 = some Exc.other :=
  (processRouter_exc_eq envRoutesOther ri (fun _ => rfl) (fun _ => rfl)
    (fun _ => rfl) (fun _ => rfl) (fun _ => rfl)).trans rfl

/-- Claim C1, counterexample to the original wording: in an incremental
pass, `router1` — fetched admin-down while a record for it exists — is
torn down (`_router_removed` is invoked for it) and its record is
discarded, contradicting "no add/remove driver calls are issued for it,
its RouterRecord is retained". -/
theorem C1_counterexample :
    Event.routerRemoved "r1" ∈
      (processRouters envAllOk ctxWith1 [router1down] [] 0 false).2 ∧
    riLookup (processRouters envAllOk ctxWith1 [router1down] [] 0
      false).1.router_info "r1" = none := by
  decide

/-- Claim C1, witness: the amended theorem applied to the concrete
single-router scenario. -/
theorem C1_witness :
    Event.routerRemoved "r1" ∈
      (processRouters envAllOk ctxWith1 [router1down] [] 0 false).2 ∧
    riLookup (processRouters envAllOk ctxWith1 [router1down] [] 0
      false).1.router_info "r1" = none :=
  (C1_theorem envAllOk ctxWith1 [router1down] [] 0 false "r1" (by decide)
    (by decide)).2 rfl (by decide) (by decide)

/-- Claim C3, counterexample to the original wording: in a full-resync
pass whose route-update driver call raises an unexpected exception for
`router1`, the error is caught inside `_process_routers` (the device
lands in `sync_devices`), and `process_service` returns with `fullsync`
still cleared. -/
theorem C3_counterexample :
    ctxFullsync.fullsync = true ∧
    (process_service envServiceOther ctxFullsync).1.fullsync = false ∧
    0 ∈ (process_service envServiceOther ctxFullsync).1.sync_devices := by
  decide

/-- Claim C3, witness: the amended theorem applied to the concrete
unexpected-error scenario. -/
theorem C3_witness :
    (process_service envServiceOther ctxFullsync).1.fullsync = false :=
  (C3_theorem envServiceOther ctxFullsync rfl).2 rfl rfl rfl rfl [router1]
    rfl (fun ri => by
      show (processRouter envRoutesOther ri).2.2 ≠ some Exc.driverException ∧
        (processRouter envRoutesOther ri).2.2 ≠ some Exc.keyError
      rw [envRoutesOther_exc ri]
      exact ⟨by simp, by simp⟩)

/-- Claim C4, counterexample to the original wording: for a router with
no gateway port, a fully successful pass still issues the
`_routes_updated` call — route reconciliation is not skipped. -/
theorem C4_counterexample :
    recordNoGw.router.gw_port = none ∧
    Event.routesUpdated "r1" ∈ (processRouter envAllOk recordNoGw).2.1 := by
  decide

/-- Claim C4 (amended).  When the desired state has no gateway port,
`_process_router` skips floating-ip reconciliation entirely, but the
route-update call is still issued whenever the pass raises no
exception. -/
theorem C4_theorem (env : Env) (ri : RouterInfo)
    (hgw : ri.router.gw_port = none) :
    (∀ gw, Event.floatingIpsProcessed ri.router_id gw ∉
      (processRouter env ri).2.1) ∧
    ((processRouter env ri).2.2 = none →
      Event.routesUpdated ri.router_id ∈ (processRouter env ri).2.1) :=
  ⟨processRouter_no_fip env ri hgw,
   fun h => processRouter_routes_of_ok env ri h⟩

/-- Claim C4, witness: the amended theorem applied to the concrete
gateway-less record. -/
theorem C4_witness :
    Event.routesUpdated "r1" ∈ (processRouter envAllOk recordNoGw).2.1 :=
  (C4_theorem envAllOk recordNoGw rfl).2 rfl

/-- Claim C5, counterexample to the original wording: `port1` is in the
computed old-port list, its `_internal_network_removed` driver call
fails with a `DriverException`, and the port is still present in
`ri.internal_ports` afterwards — the entry is not dropped when the
remove call fails. -/
theorem C5_counterexample :
    port1 ∈ (get_port_set_diffs record1.internal_ports
      record1.router.interfaces).1 ∧
    (processRouter envRemoveFails record1).2.2 =
      some Exc.driverException ∧
    port1 ∈ (processRouter envRemoveFails record1).1.internal_ports := by
  decide

/-- Claim C5 (amended).  A port enters `ri.internal_ports` or
`ri.ha_gw_ports` only after its add driver call returned without
exception, and an old port whose remove driver call does not succeed is
retained in its applied-port list rather than dropped. -/
theorem C5_theorem (env : Env) (ri : RouterInfo) :
    (∀ p, p ∉ ri.internal_ports →
      p ∈ (processRouter env ri).1.internal_ports →
      env.internalAdded ri.router_id p = none) ∧
    (∀ q, q ∈ (get_port_set_diffs ri.internal_ports
        ri.router.interfaces).1 →
      env.internalRemoved ri.router_id q ≠ none →
      q ∈ (processRouter env ri).1.internal_ports) ∧
    (∀ p, p ∉ ri.ha_gw_ports →
      p ∈ (processRouter env ri).1.ha_gw_ports →
      env.gatewayAdded ri.router_id p = none) ∧
    (∀ q, q ∈ (get_port_set_diffs ri.ha_gw_ports
        ri.router.ha_gw_ports).1 →
      env.gatewayRemoved ri.router_id q ≠ none →
      q ∈ (processRouter env ri).1.ha_gw_ports) := by
  obtain ⟨h1, h2, h3, h4⟩ := processRouter_ports env ri
  exact ⟨h1, fun q hq hf => h2 q (List.mem_filter.mp hq).1 hf, h3,
    fun q hq hf => h4 q (List.mem_filter.mp hq).1 hf⟩

/-- Claim C5, witness: the amended theorem applied to the concrete
failed-remove scenario. -/
theorem C5_witness :
    port1 ∈ (processRouter envRemoveFails record1).1.internal_ports :=
  (C5_theorem envRemoveFails record1).2.1 port1 (by decide) (by decide)

/-- Claim C6, counterexample to the original wording: an old port whose
id survives in `new` only on an admin-down item is removed by the code
but kept by the claim's description, and with duplicate ids in `new` an
admin-down item is included by the code but excluded by the claim. -/
theorem C6_counterexample :
    (get_port_set_diffs [port1] [port1down]).1 ≠
      claimOldPorts [port1] [port1down] ∧
    (get_port_set_diffs [] [port1down, port1]).2 ≠
      claimNewPorts [] [port1down, port1] := by
  decide

/-- Claim C6, witness: the amended description evaluated on the
counterexample's first input. -/
theorem C6_witness :
    get_port_set_diffs [port1] [port1down] =
      (amendedOldPorts [port1] [port1down],
       amendedNewPorts [port1] [port1down]) :=
  (C6_theorem [port1] [port1down]).1

/-- Claim C7, witness: the theorem applied to a concrete two-router
batch whose first router fails with a `DriverException`. -/
theorem C7_witness :
    "r1" ∈ (processLoop envRoutesDriverExc [] [router1, router2]
      ctxEmpty).1.updated_routers ∧
    (processLoop envRoutesDriverExc [] [router1, router2]
      ctxEmpty).1.fullsync = true :=
  ⟨(C7_theorem envRoutesDriverExc [] router1 [router2] ctxEmpty
      (RouterInfo.init "r1" router1) [Event.routesUpdated "r1"]
      (by decide) rfl (by decide)).2.1,
   (C7_theorem envRoutesDriverExc [] router1 [router2] ctxEmpty
      (RouterInfo.init "r1" router1) [Event.routesUpdated "r1"]
      (by decide) rfl (by decide)).2.2⟩

/-- Claim C8.  On a control-plane heartbeat timeout
(`MessagingTimeout`), the fleet-level `process_service` sets every
device context's `fullsync` flag, changes nothing else, issues no device
pass, and returns. -/
theorem C8_theorem (envs : String → ServiceEnv)
    (ctxs : List (String × CtxState)) :
    fleet_process_service (some Exc.messagingTimeout) envs ctxs =
      Except.ok (ctxs.map (fun nc => (nc.1, { nc.2 with fullsync := true })),
        ([] : List Event)) :=
  rfl

end PhyRSH

namespace HwVlan

lemma count_delete_resources_loop (outcome : Nat → DelOutcome) (i : Nat) :
    ∀ (todo live : List Nat),
      (delete_resources_loop outcome todo live).count i =
        if outcome i = DelOutcome.retainedExc then live.count i
        else live.count i - todo.count i := by
  intro todo
  induction todo with
  | nil =>
    intro live
    by_cases h : outcome i = DelOutcome.retainedExc <;>
      simp [delete_resources_loop, h]
  | cons j todo ih =>
    intro live
    by_cases hij : i = j
    · subst hij
      rcases hi : outcome i with _ | _ | _
      · rw [delete_resources_loop]
        simp only [hi]
        rw [ih, hi]
        rw [if_neg (by simp), if_neg (by simp)]
        rw [List.count_erase_self, List.count_cons_self]
        omega
      · rw [delete_resources_loop]
        simp only [hi]
        rw [ih, hi]
        rw [if_neg (by simp), if_neg (by simp)]
        rw [List.count_erase_self, List.count_cons_self]
        omega
      · rw [delete_resources_loop]
        simp only [hi]
        rw [ih, hi]
        simp
    · have hne : i ≠ j := hij
      rcases hj : outcome j with _ | _ | _ <;>
        rw [delete_resources_loop] <;> simp only [hj] <;>
        rw [ih] <;>
        rw [List.count_cons_of_ne hne] <;>
        try rw [List.count_erase_of_ne hne]

/-- Claim C10.  After `_delete_resources` returns, an id has been removed from
the resource-id set exactly when its deletion succeeded or failed with
the expected exception type; an id whose deletion failed with any other
`NeutronException` remains. -/
theorem C10_theorem (outcome : Nat → DelOutcome) (ids : List Nat) (i : Nat) :
    i ∈ delete_resources outcome ids ↔
      i ∈ ids ∧ outcome i = DelOutcome.retainedExc := by
  have h := count_delete_resources_loop outcome i ids ids
  constructor
  · intro hm
    have hpos : 0 < (delete_resources_loop outcome ids ids).count i :=
      List.count_pos_iff.mpr hm
    rw [h] at hpos
    by_cases hr : outcome i = DelOutcome.retainedExc
    · rw [if_pos hr] at hpos
      exact ⟨List.count_pos_iff.mp hpos, hr⟩
    · rw [if_neg hr] at hpos
      omega
  · rintro ⟨hm, hr⟩
    have hc : (delete_resources_loop outcome ids ids).count i =
        ids.count i := by rw [h, if_pos hr]
    exact List.count_pos_iff.mp
      (hc ▸ List.count_pos_iff.mpr hm)

/-- Claim C2 (amended).  A management-port deletion that always fails with a
retained error is attempted exactly `DELETION_ATTEMPTS - 1` times before
the loop takes the abort-warning branch and returns. -/
theorem C2_theorem (oracle : Nat → DelOutcome) (port : MgmtPort)
    (h : ∀ n, oracle n = DelOutcome.retainedExc) :
    delete_hosting_device_resources oracle (some port) =
      (DELETION_ATTEMPTS - 1, true) := by
  have hdel : ∀ n, delete_resources (fun _ => oracle n) [port.id] =
      [port.id] := by
    intro n
    unfold delete_resources
    rw [delete_resources_loop]
    simp only [h n]
    rfl
  have step : ∀ rem att, dhdrLoop oracle (rem + 1) att (some port) =
      ((dhdrLoop oracle rem (att + 1) (some port)).1 + 1,
       (dhdrLoop oracle rem (att + 1) (some port)).2) := by
    intro rem att
    rw [dhdrLoop, hdel att]
    simp
  have h0 : dhdrLoop oracle 0 5 (some port) = (0, true) := rfl
  have h1 : dhdrLoop oracle (0 + 1) 4 (some port) = (1, true) := by
    rw [step 0 4, h0]
  have h2 : dhdrLoop oracle (1 + 1) 3 (some port) = (2, true) := by
    rw [step 1 3]
    rw [show (1 : Nat) = 0 + 1 from rfl, h1]
  have h3 : dhdrLoop oracle (2 + 1) 2 (some port) = (3, true) := by
    rw [step 2 2]
    rw [show (2 : Nat) = 1 + 1 from rfl, h2]
  have h4 : dhdrLoop oracle (3 + 1) 1 (some port) = (4, true) := by
    rw [step 3 1]
    rw [show (3 : Nat) = 2 + 1 from rfl, h3]
  show dhdrLoop oracle (DELETION_ATTEMPTS - 1) 1 (some port) =
    (DELETION_ATTEMPTS - 1, true)
  rw [show DELETION_ATTEMPTS - 1 = 3 + 1 from rfl, h4]


/-- Claim C2, counterexample to the original wording: with a deleter
that always fails with a retained error, the deletion is attempted 4
times — not `DELETION_ATTEMPTS = 5` times — before the warning branch
returns. -/
theorem C2_counterexample :
    delete_hosting_device_resources (fun _ => DelOutcome.retainedExc)
      (some { id := 7 }) = (4, true) ∧
    (4 : Nat) ≠ DELETION_ATTEMPTS := by
  decide

/-- Claim C2, witness: the amended theorem applied to the concrete
always-failing oracle. -/
theorem C2_witness :
    delete_hosting_device_resources (fun _ => DelOutcome.retainedExc)
      (some { id := 3 }) = (DELETION_ATTEMPTS - 1, true) :=
  C2_theorem (fun _ => DelOutcome.retainedExc) { id := 3 } (fun _ => rfl)

end HwVlan

namespace RpcInit

/-- Claim C9.  Constructing `PhyCiscoRoutingPluginApi` always raises a
`TypeError` — its `__init__` calls `super(CiscoRoutingPluginApi, self)`
although the instance's class is not a subclass of
`CiscoRoutingPluginApi` — so `RoutingServiceHelperWithPhyContext.
__init__`, whose body constructs it, can never complete either. -/
theorem C9_theorem (topic host : String) :
    PhyCiscoRoutingPluginApi_init topic host =
      Except.error PyError.typeError ∧
    RoutingServiceHelperWithPhyContext_init host =
      Except.error PyError.typeError :=
  ⟨rfl, rfl⟩

end RpcInit
